import Mathlib

/-!
# RecognizerApi camera demo: a shallow embedding

The development follows `demo.cpp` (the Windows camera demo that drives the
closed-source recognizer library) function by function.  The library and OpenCV
are external: every call into them is recorded in a trace together with what it
returned, and what it returned is an input of the model.
-/

namespace Demo

/-! ## Constants of demo.cpp -/

/-- Key code of the space bar, `#define KEY_SPACE 32`. -/
def KEY_SPACE : Int := 32

/-- Key code of the escape key, `#define KEY_ESCAPE 27`. -/
def KEY_ESCAPE : Int := 27

/-! ## Types of the library boundary -/

/-- Modelled from the spec: `Recognizer/RecognizerError.h` is not among the
sources.  The demo only ever compares a status with
`RECOGNIZER_ERROR_STATUS_SUCCESS`; every other member of the shared status
taxonomy is a failure, kept apart by its code. -/
inductive RecognizerErrorStatus where
  | RECOGNIZER_ERROR_STATUS_SUCCESS
  | failure (code : Nat)
  deriving DecidableEq, Repr

/-- Modelled from the spec: `Recognizer/RecognizerImage.h` is not among the
sources.  The four layout tags are the ones `createImageFromRecognizerImage`
switches on; `other` stands for any further member of the enumeration, which
the `default:` branch of that switch receives. -/
inductive RawImageType where
  | RAW_IMAGE_TYPE_BGRA
  | RAW_IMAGE_TYPE_BGR
  | RAW_IMAGE_TYPE_GRAY
  | RAW_IMAGE_TYPE_NV21
  | other (tag : Nat)
  deriving DecidableEq, Repr

/-- Modelled from the spec: the header declaring `ShowImageType` is not among
the sources.  `onShowImage` only tests for `SHOW_IMAGE_TYPE_DEWARPED`; `other`
stands for every other member. -/
inductive ShowImageType where
  | SHOW_IMAGE_TYPE_DEWARPED
  | other (tag : Nat)
  deriving DecidableEq, Repr

/-- The six detection statuses `onDetectedObject` switches on. -/
inductive PPDetectionStatus where
  | DETECTION_STATUS_CAMERA_AT_ANGLE
  | DETECTION_STATUS_CAMERA_TOO_HIGH
  | DETECTION_STATUS_CAMERA_TOO_NEAR
  | DETECTION_STATUS_FAIL
  | DETECTION_STATUS_PARTIAL_OBJECT
  | DETECTION_STATUS_SUCCESS
  deriving DecidableEq, Repr

/-- A point of a detection, `PPPoint`, with its `int` coordinates. -/
structure PPPoint where
  x : Int
  y : Int
  deriving DecidableEq, Repr

/-- An image size, `PPSize`. -/
structure PPSize where
  width : Int
  height : Int
  deriving DecidableEq, Repr

/-- Identity of a pixel buffer: what a successful raw-bytes accessor, or the
`data` member of a captured frame, points to. -/
structure PixelBuffer where
  id : Nat
  deriving DecidableEq, Repr

/-- A `RecognizerImage*` as the demo sees it: the handle is opaque, so it is
given by what each of its five accessors answers, a status and the value left
in the out-parameter.  The `int` out-parameters hold 32-bit values; the
`void *data` out-parameter holds NULL (`none`) or the address of a pixel
buffer. -/
structure RecognizerImage where
  bytesPerRow : RecognizerErrorStatus × Int
  width : RecognizerErrorStatus × Int
  height : RecognizerErrorStatus × Int
  rawBytes : RecognizerErrorStatus × Option PixelBuffer
  rawImageType : RecognizerErrorStatus × RawImageType
  deriving DecidableEq, Repr

/-! ## 32-bit and 8-bit machine integers -/

/-- Smallest value of a 32-bit `int`. -/
def INT_MIN : Int := -2147483648

/-- Largest value of a 32-bit `int`. -/
def INT_MAX : Int := 2147483647

/-- The value is one a 32-bit `int` can hold. -/
def IsInt32 (x : Int) : Prop := INT_MIN ≤ x ∧ x ≤ INT_MAX

instance (x : Int) : Decidable (IsInt32 x) := by
  unfold IsInt32; infer_instance

/-- Result of an `int` operation whose exact value is `x`: the value itself when
it fits, and the two's complement wrap-around of the x86 target otherwise. -/
def wrapInt32 (x : Int) : Int := (x + 2147483648) % 4294967296 - 2147483648

/-- The cast `(char)` of an `int`: the low eight bits, read as a signed byte. -/
def toChar (x : Int) : Int := (x + 128) % 256 - 128

/-- Number of values of a `size_t`, SIZE_MAX + 1: 2^32 on the x86 target. -/
def SIZE_RANGE : Int := 4294967296

/-- The conversion of an `int` to `size_t`, as when an `int` is passed for a
`size_t` parameter: a value that is not negative is kept, a negative value v
becomes SIZE_MAX + 1 + v. -/
def toSizeT (x : Int) : Nat := if 0 ≤ x then x.toNat else (SIZE_RANGE + x).toNat

/-! ## cv::Mat -/

/-- What the `data` member of a `cv::Mat` header refers to: nothing (a
default-constructed matrix), a buffer of somebody else that the header merely
points to (the five-argument constructor), storage of its own holding a copy of
a buffer (the result of `clone`), or storage of its own filled otherwise (a
matrix created with a size and a fill value). -/
inductive MatData where
  | null
  | external (buf : PixelBuffer)
  | owned (copyOf : PixelBuffer)
  | fresh
  deriving DecidableEq, Repr

/-- The `data` member for a `void*` handed to the five-argument constructor:
NULL gives a header without data, an address a header pointing at that buffer. -/
def MatData.ofPtr (p : Option PixelBuffer) : MatData :=
  match p with
  | none => MatData.null
  | some b => MatData.external b

/-- A `cv::Mat` header: the members the demo sets or reads.  The constructor
`cv::Mat(int rows, int cols, int type, void* data, size_t step)` records its
arguments; `step` is a `size_t`. -/
structure Mat where
  rows : Int
  cols : Int
  type : Int
  data : MatData
  step : Nat
  deriving DecidableEq, Repr

namespace Mat

/-- The default-constructed matrix `cv::Mat()`. -/
def default : Mat := { rows := 0, cols := 0, type := 0, data := MatData.null, step := 0 }

/-- OpenCV `Mat::empty()`: no data or no elements. -/
def empty (m : Mat) : Bool := m.data == MatData.null || m.rows * m.cols == 0

/-- OpenCV `Mat::channels()`: `CV_MAT_CN`, bits 3 to 11 of the type plus one. -/
def channels (m : Mat) : Int := (m.type / 8) % 512 + 1

/-- OpenCV `Mat::depth()`: `CV_MAT_DEPTH`, the low three bits of the type. -/
def depth (m : Mat) : Int := m.type % 8

/-- Bytes of one channel value for each depth code (`CV_8U` = 0 ... `CV_64F` = 6). -/
def elemSize1 (m : Mat) : Int :=
  if m.depth = 0 ∨ m.depth = 1 then 1
  else if m.depth = 2 ∨ m.depth = 3 then 2
  else if m.depth = 4 ∨ m.depth = 5 then 4
  else 8

/-- OpenCV `Mat::clone()`: a matrix of the same size and type with storage of
its own, continuous, holding a copy of the elements; the clone of a matrix
without data is the default matrix. -/
def clone (m : Mat) : Mat :=
  match m.data with
  | MatData.null => Mat.default
  | MatData.external b =>
      { rows := m.rows, cols := m.cols, type := m.type, data := MatData.owned b,
        step := toSizeT (m.cols * (m.channels * m.elemSize1)) }
  | MatData.owned b =>
      { rows := m.rows, cols := m.cols, type := m.type, data := MatData.owned b,
        step := toSizeT (m.cols * (m.channels * m.elemSize1)) }
  | MatData.fresh =>
      { rows := m.rows, cols := m.cols, type := m.type, data := MatData.fresh,
        step := toSizeT (m.cols * (m.channels * m.elemSize1)) }

end Mat

/-- OpenCV type code `CV_8UC1`. -/
def CV_8UC1 : Int := 0

/-- OpenCV type code `CV_8UC3`. -/
def CV_8UC3 : Int := 16

/-- OpenCV type code `CV_8UC4`. -/
def CV_8UC4 : Int := 24

/-! ## createImageFromRecognizerImage (demo.cpp lines 24-74) -/

/-- The text `createImageFromRecognizerImage` prints for a failed accessor;
`recognizerErrorToString` is the library's, so the status is kept as it is. -/
structure ErrorLine where
  text : String
  status : RecognizerErrorStatus
  deriving DecidableEq, Repr

/-- Function that converts RecognizerImage to cv::Mat, with the lines it writes
to `std::cout`.  The accessors are asked in the order of the source and the
first failure returns `cv::Mat()`.  The `int bpr` is passed for the `size_t`
step of the constructor and so converted. -/
def createImageFromRecognizerImageLog (ri : RecognizerImage) : Mat × List ErrorLine :=
  let bpr := ri.bytesPerRow.2
  if ri.bytesPerRow.1 ≠ RecognizerErrorStatus.RECOGNIZER_ERROR_STATUS_SUCCESS then
    (Mat.default, [⟨"Error creating frame from RecognizerImage: ", ri.bytesPerRow.1⟩])
  else
  let width := ri.width.2
  if ri.width.1 ≠ RecognizerErrorStatus.RECOGNIZER_ERROR_STATUS_SUCCESS then
    (Mat.default, [⟨"Error creating frame from RecognizerImage: ", ri.width.1⟩])
  else
  let height := ri.height.2
  if ri.height.1 ≠ RecognizerErrorStatus.RECOGNIZER_ERROR_STATUS_SUCCESS then
    (Mat.default, [⟨"Error creating frame from RecognizerImage: ", ri.height.1⟩])
  else
  let data := ri.rawBytes.2
  if ri.rawBytes.1 ≠ RecognizerErrorStatus.RECOGNIZER_ERROR_STATUS_SUCCESS then
    (Mat.default, [⟨"Error creating frame from RecognizerImage: ", ri.rawBytes.1⟩])
  else
  let rawType := ri.rawImageType.2
  if ri.rawImageType.1 ≠ RecognizerErrorStatus.RECOGNIZER_ERROR_STATUS_SUCCESS then
    (Mat.default, [⟨"Error creating frame from RecognizerImage: ", ri.rawImageType.1⟩])
  else
  match rawType with
  | RawImageType.RAW_IMAGE_TYPE_BGRA =>
      ({ rows := height, cols := width, type := CV_8UC4, data := MatData.ofPtr data, step := toSizeT bpr }, [])
  | RawImageType.RAW_IMAGE_TYPE_BGR =>
      ({ rows := height, cols := width, type := CV_8UC3, data := MatData.ofPtr data, step := toSizeT bpr }, [])
  | RawImageType.RAW_IMAGE_TYPE_GRAY =>
      ({ rows := height, cols := width, type := CV_8UC1, data := MatData.ofPtr data, step := toSizeT bpr }, [])
  | RawImageType.RAW_IMAGE_TYPE_NV21 =>
      ({ rows := wrapInt32 (height + Int.tdiv height 2), cols := width, type := CV_8UC1,
         data := MatData.ofPtr data, step := toSizeT bpr }, [])
  | RawImageType.other _ => (Mat.default, [])

/-- The matrix `createImageFromRecognizerImage` returns. -/
def createImageFromRecognizerImage (ri : RecognizerImage) : Mat :=
  (createImageFromRecognizerImageLog ri).1

/-! ## The callbacks (demo.cpp lines 77-160) -/

/-- The two globals of demo.cpp, `dewarpedFrame` and `hasDewarped`, the lines
the callbacks have written with `printf`, and the lines
`createImageFromRecognizerImage` has written to `std::cout`. -/
structure World where
  dewarpedFrame : Mat
  hasDewarped : Int
  stdout : List String
  cout : List ErrorLine
  deriving DecidableEq, Repr

/-- The globals at program start: `cv::Mat dewarpedFrame; int hasDewarped = 0;`. -/
def World.initial : World :=
  { dewarpedFrame := Mat.default, hasDewarped := 0, stdout := [], cout := [] }

/-- Callback `onDetectionStarted`. -/
def onDetectionStarted (w : World) : World :=
  { w with stdout := w.stdout ++ ["Detection has started!"] }

/-- The line `onDetectedObject` prints for point `i`; an index past the end of
the array reads as the point (0, 0). -/
def pointLine (points : List PPPoint) (i : Nat) : String :=
  "Point " ++ toString i ++ " location: (" ++ toString (points.getD i ⟨0, 0⟩).x ++ ", "
    ++ toString (points.getD i ⟨0, 0⟩).y ++ ")"

/-- The description `onDetectedObject` chooses in its switch. -/
def detStatusDesc (ds : PPDetectionStatus) : String :=
  match ds with
  | PPDetectionStatus.DETECTION_STATUS_CAMERA_AT_ANGLE => "camera is at angle"
  | PPDetectionStatus.DETECTION_STATUS_CAMERA_TOO_HIGH => "camera is too high"
  | PPDetectionStatus.DETECTION_STATUS_CAMERA_TOO_NEAR => "camera is too near"
  | PPDetectionStatus.DETECTION_STATUS_FAIL => "detection has failed"
  | PPDetectionStatus.DETECTION_STATUS_PARTIAL_OBJECT => "some parts of object are not visible"
  | PPDetectionStatus.DETECTION_STATUS_SUCCESS => "detection has succeeded"

/-- Callback `onDetectedObject`: prints the image size, the number of points,
every point when there are some and the array is not NULL (`none`), and the
detection status; returns the continue flag. -/
def onDetectedObject (points : Option (List PPPoint)) (pointsSize : Nat) (imageSize : PPSize)
    (ds : PPDetectionStatus) (w : World) : World × Int :=
  let l1 := "Detection on image of size " ++ toString imageSize.width ++ "x"
    ++ toString imageSize.height ++ " has finished"
  let l2 := "Total " ++ toString pointsSize ++ " points have been found"
  let l3 :=
    match points with
    | some ps => if pointsSize > 0 then (List.range pointsSize).map (pointLine ps) else []
    | none => []
  let l4 := "Detection status: " ++ detStatusDesc ds
  ({ w with stdout := w.stdout ++ [l1, l2] ++ l3 ++ [l4] }, 1)

/-- Callback `onDetectionFailed`. -/
def onDetectionFailed (w : World) : World :=
  { w with stdout := w.stdout ++ ["Detection has completely failed"] }

/-- Callback `onRecognitionStarted`. -/
def onRecognitionStarted (w : World) : World :=
  { w with stdout := w.stdout ++ ["Object recognition has started"] }

/-- Callback `onRecognitionFinished`. -/
def onRecognitionFinished (w : World) : World :=
  { w with stdout := w.stdout ++ ["Object recognition has finished"] }

/-- Callback function used to retrieve dewarped images from recognition process.
In this callback `createImageFromRecognizerImage` also writes to `std::cout`
when an accessor fails. -/
def onShowImage (image : RecognizerImage) (showType : ShowImageType) (_name : String)
    (w : World) : World :=
  if showType = ShowImageType.SHOW_IMAGE_TYPE_DEWARPED then
    { dewarpedFrame := (createImageFromRecognizerImage image).clone,
      hasDewarped := 1,
      stdout := w.stdout,
      cout := w.cout ++ (createImageFromRecognizerImageLog image).2 }
  else w

/-- The `RecognizerCallback` structure: eight function pointers, `none` for NULL. -/
structure RecognizerCallback where
  onDetectedObject :
    Option (Option (List PPPoint) → Nat → PPSize → PPDetectionStatus → World → World × Int)
  onDetectionStarted : Option (World → World)
  onDetectionFailed : Option (World → World)
  onRecognitionStarted : Option (World → World)
  onRecognitionFinished : Option (World → World)
  onProgress : Option (Int → World → World)
  onShouldStopRecognition : Option (World → World × Int)
  onShowImage : Option (RecognizerImage → ShowImageType → String → World → World)

/-- Function `buildRecognizerCallback`. -/
def buildRecognizerCallback : RecognizerCallback :=
  { onDetectedObject := some onDetectedObject,
    onDetectionStarted := some onDetectionStarted,
    onDetectionFailed := some onDetectionFailed,
    onRecognitionStarted := some onRecognitionStarted,
    onRecognitionFinished := some onRecognitionFinished,
    onProgress := none,
    onShouldStopRecognition := none,
    onShowImage := some onShowImage }

/-! ## main (demo.cpp lines 203-449): the calls it makes -/

/-- The twelve MRTD getters `recognizerResultGetMRTD...` main calls, in the
order of the source. -/
inductive MRTDGetter where
  | DateOfExpiry
  | Issuer
  | DocumentNumber
  | DocumentCode
  | DateOfBirth
  | PrimaryID
  | SecondaryID
  | Sex
  | Nationality
  | Opt1
  | Opt2
  | RawStringData
  deriving DecidableEq, Repr

/-- Value of a `RecognizerImage*` variable: NULL or a handle of the library. -/
inductive ImagePtr where
  | null
  | handle (id : Nat)
  deriving DecidableEq, Repr

/-- The two `RecognizerImage*` variables of main. -/
inductive ImageVar where
  | image
  | debarreledImage
  deriving DecidableEq, Repr

/-- The matrices main hands to `cv::imshow`. -/
inductive MatVar where
  | frame
  | console
  | dewarpedFrame
  | debarreledFrame
  deriving DecidableEq, Repr

/-- Where the text of a `cv::putText` call comes from: a string literal, the
string a getter stored, the choice `strcmp("M", sex) == 0 ? "MALE" : "FEMALE"`,
or `dateString` applied to the string a getter stored. -/
inductive TextSource where
  | literal (s : String)
  | field (g : MRTDGetter)
  | maleOrFemale
  | dateString (g : MRTDGetter) (future : Int)
  deriving DecidableEq, Repr

/-- One call main makes into the library or OpenCV, with the arguments the
properties below speak about and with what the call returned. -/
inductive Call where
  | recognizerLoadFileToBuffer (file : String) (status : RecognizerErrorStatus)
  | cout (text : String) (status : Option RecognizerErrorStatus)
  | recognizerSettingsCreate (status : RecognizerErrorStatus)
  | recognizerDeviceInfoCreate (status : RecognizerErrorStatus)
  | recognizerDeviceInfoSetNumberOfProcessors (n : Int) (status : RecognizerErrorStatus)
  | recognizerSettingsSetDeviceInfo (status : RecognizerErrorStatus)
  | recognizerSettingsSetZicerModel (status : RecognizerErrorStatus)
  | recognizerSettingsSetMRTDSettings (showFullDocument showMachineReadableZone : Int)
      (status : RecognizerErrorStatus)
  | recognizerSettingsSetLicenseKeyForLicensee (licensee key : String)
      (status : RecognizerErrorStatus)
  | recognizerBarrelDewarperCreate (status : RecognizerErrorStatus)
  | recognizerCreate (status : RecognizerErrorStatus)
  | videoCapture (device : Int) (isOpened : Bool)
  | cameraSet (property : String) (value : Int)
  | namedWindow (name : String)
  | cameraRead
  | recognizerImageCreateFromRawImage (data : MatData) (width height : Int) (bytesPerRow : Nat)
      (rawType : RawImageType) (status : RecognizerErrorStatus)
  | recognizerBarrelDewarperDewarp (status : RecognizerErrorStatus)
  | recognizerRecognizeFromImage (image : ImagePtr) (imageIsVideoFrame : Int)
      (status : RecognizerErrorStatus)
  | recognizerResultListGetNumOfResults (numResults : Nat)
  | recognizerResultListGetResultAtIndex (index : Nat)
  | recognizerResultIsMRTDResult (status : RecognizerErrorStatus) (isMrtd : Int)
  | recognizerResultIsResultValid (status : RecognizerErrorStatus) (valid : Int)
  | recognizerResultGetMRTD (g : MRTDGetter)
  | putText (text : TextSource) (x y : Int)
  | recognizerImageDelete (v : ImageVar)
  | recognizerResultListDelete
  | createImageFromRecognizerImage (v : ImageVar)
  | imshow (winname : String) (v : MatVar) (m : Mat)
  | waitKey (delay : Int) (key : Int)
  | recognizerReset
  | recognizerDeviceInfoDelete
  | recognizerSettingsDelete
  | recognizerDelete
  | recognizerFreeFileBuffer
  | recognizerBarrelDewarperDelete
  | cameraRelease
  deriving DecidableEq, Repr

/-- What the library answers during the setup part of main.  Only three of the
answers are looked at by main; the others are returned and dropped. -/
structure SetupInput where
  loadFileToBuffer : RecognizerErrorStatus
  settingsCreate : RecognizerErrorStatus
  deviceInfoCreate : RecognizerErrorStatus
  deviceInfoSetNumberOfProcessors : RecognizerErrorStatus
  settingsSetDeviceInfo : RecognizerErrorStatus
  settingsSetZicerModel : RecognizerErrorStatus
  settingsSetMRTDSettings : RecognizerErrorStatus
  settingsSetLicenseKeyForLicensee : RecognizerErrorStatus
  barrelDewarperCreate : RecognizerErrorStatus
  recognizerCreate : RecognizerErrorStatus
  cameraIsOpened : Bool
  deriving DecidableEq, Repr

/-- A callback the engine invokes while `recognizerRecognizeFromImage` runs,
with its arguments. -/
inductive EngineEvent where
  | detectionStarted
  | detectedObject (points : Option (List PPPoint)) (pointsSize : Nat) (imageSize : PPSize)
      (ds : PPDetectionStatus)
  | detectionFailed
  | recognitionStarted
  | progress (percent : Int)
  | showImage (image : RecognizerImage) (showType : ShowImageType) (name : String)
  | shouldStopRecognition
  | recognitionFinished
  deriving DecidableEq, Repr

/-- What `recognizerBarrelDewarperDewarp` did: the status it returned and the
pointer it stored in `debarreledImage`, `none` when it left the variable alone. -/
structure DewarpAnswer where
  status : RecognizerErrorStatus
  stored : Option ImagePtr
  deriving DecidableEq, Repr

/-- What the camera, the library and the keyboard supply in one iteration of the
frame loop: the captured frame, the status of the image creation, the answer of
the dewarper, the status of the recognition and the callbacks the engine
invoked during it, the value left in `numResults`, status and flag of the two
probes, what the accessors answer on `debarreledImage` after the result list
was freed, and the value `cv::waitKey` returned. -/
structure FrameInput where
  frame : Mat
  imageCreate : RecognizerErrorStatus
  dewarp : DewarpAnswer
  recognize : RecognizerErrorStatus
  engineEvents : List EngineEvent
  numResults : Nat
  isMrtd : RecognizerErrorStatus × Int
  valid : RecognizerErrorStatus × Int
  debarreledView : RecognizerImage
  waitKey : Int
  deriving DecidableEq, Repr

/-- The engine invoking one callback through the structure main passed: a hook
that is NULL is not invoked. -/
def dispatch (cb : RecognizerCallback) (w : World) (ev : EngineEvent) : World :=
  match ev with
  | EngineEvent.detectionStarted =>
      match cb.onDetectionStarted with
      | some h => h w
      | none => w
  | EngineEvent.detectedObject points n size ds =>
      match cb.onDetectedObject with
      | some h => (h points n size ds w).1
      | none => w
  | EngineEvent.detectionFailed =>
      match cb.onDetectionFailed with
      | some h => h w
      | none => w
  | EngineEvent.recognitionStarted =>
      match cb.onRecognitionStarted with
      | some h => h w
      | none => w
  | EngineEvent.progress p =>
      match cb.onProgress with
      | some h => h p w
      | none => w
  | EngineEvent.showImage image showType name =>
      match cb.onShowImage with
      | some h => h image showType name w
      | none => w
  | EngineEvent.shouldStopRecognition =>
      match cb.onShouldStopRecognition with
      | some h => (h w).1
      | none => w
  | EngineEvent.recognitionFinished =>
      match cb.onRecognitionFinished with
      | some h => h w
      | none => w

/-! ## main: setup, frame loop, cleanup -/

/-- The getter calls of lines 367-381, in the order of the source. -/
def getterCalls : List Call :=
  [Call.recognizerResultGetMRTD MRTDGetter.DateOfExpiry,
   Call.recognizerResultGetMRTD MRTDGetter.Issuer,
   Call.recognizerResultGetMRTD MRTDGetter.DocumentNumber,
   Call.recognizerResultGetMRTD MRTDGetter.DocumentCode,
   Call.recognizerResultGetMRTD MRTDGetter.DateOfBirth,
   Call.recognizerResultGetMRTD MRTDGetter.PrimaryID,
   Call.recognizerResultGetMRTD MRTDGetter.SecondaryID,
   Call.recognizerResultGetMRTD MRTDGetter.Sex,
   Call.recognizerResultGetMRTD MRTDGetter.Nationality,
   Call.recognizerResultGetMRTD MRTDGetter.Opt1,
   Call.recognizerResultGetMRTD MRTDGetter.Opt2,
   Call.recognizerResultGetMRTD MRTDGetter.RawStringData]

/-- The `cv::putText` calls of lines 384-399 that display a found result. -/
def resultTextCalls : List Call :=
  [Call.putText (TextSource.literal "SUCCESS") 200 100,
   Call.putText (TextSource.field MRTDGetter.PrimaryID) 200 145,
   Call.putText (TextSource.field MRTDGetter.SecondaryID) 200 160,
   Call.putText TextSource.maleOrFemale 200 175,
   Call.putText (TextSource.dateString MRTDGetter.DateOfBirth 0) 200 190,
   Call.putText (TextSource.field MRTDGetter.Nationality) 200 205,
   Call.putText (TextSource.field MRTDGetter.DocumentCode) 200 235,
   Call.putText (TextSource.field MRTDGetter.DocumentNumber) 200 250,
   Call.putText (TextSource.dateString MRTDGetter.DateOfExpiry 1) 200 265,
   Call.putText (TextSource.field MRTDGetter.Issuer) 200 280,
   Call.putText (TextSource.field MRTDGetter.Opt1) 200 295,
   Call.putText (TextSource.field MRTDGetter.Opt2) 200 310,
   Call.putText (TextSource.literal "Press SPACE to reset scanning") 200 345]

/-- The `cv::putText` calls of lines 406-407, the default message. -/
def notFoundTextCalls : List Call :=
  [Call.putText (TextSource.literal "Result Not Found") 200 200,
   Call.putText (TextSource.literal "Press ESCAPE to exit demo") 200 250]

/-- Lines 335-402 of main: the value of `foundResult` and the calls made while
looking at the result list. -/
def examineResults (fi : FrameInput) : Int × List Call :=
  if fi.numResults = 1 then
    if fi.isMrtd.1 = RecognizerErrorStatus.RECOGNIZER_ERROR_STATUS_SUCCESS ∧ fi.isMrtd.2 ≠ 0 then
      if fi.valid.1 = RecognizerErrorStatus.RECOGNIZER_ERROR_STATUS_SUCCESS ∧ fi.valid.2 ≠ 0 then
        (1, [Call.recognizerResultListGetResultAtIndex 0,
             Call.recognizerResultIsMRTDResult fi.isMrtd.1 fi.isMrtd.2,
             Call.recognizerResultIsResultValid fi.valid.1 fi.valid.2]
            ++ getterCalls ++ resultTextCalls)
      else
        (0, [Call.recognizerResultListGetResultAtIndex 0,
             Call.recognizerResultIsMRTDResult fi.isMrtd.1 fi.isMrtd.2,
             Call.recognizerResultIsResultValid fi.valid.1 fi.valid.2])
    else
      (0, [Call.recognizerResultListGetResultAtIndex 0,
           Call.recognizerResultIsMRTDResult fi.isMrtd.1 fi.isMrtd.2])
  else (0, [])

/-- The variables that live across iterations of the frame loop: the pointer
`debarreledImage` and the globals. -/
structure LoopState where
  debarreledImage : ImagePtr
  world : World
  deriving DecidableEq, Repr

/-- How an iteration of the do-while loop ends: the condition
`keystroke != KEY_ESCAPE` holds and the loop goes on, the condition fails and
the loop is left, or main returns from inside the body. -/
inductive IterExit where
  | again
  | left
  | returned (code : Int)
  deriving DecidableEq, Repr

/-- Result of one iteration: the calls made, the state after it, the value of
`foundResult` (`none` when main returned before the variable was declared), the
value of `keystroke` (`none` when main returned before a key was read), and how
the iteration ended. -/
structure IterOut where
  calls : List Call
  state : LoopState
  foundResult : Option Int
  keystroke : Option Int
  exit : IterExit
  deriving DecidableEq, Repr

/-- The layout tag of line 318: `frame.channels() == 3 ? RAW_IMAGE_TYPE_BGR : RAW_IMAGE_TYPE_BGRA`. -/
def frameRawType (frame : Mat) : RawImageType :=
  if frame.channels = 3 then RawImageType.RAW_IMAGE_TYPE_BGR else RawImageType.RAW_IMAGE_TYPE_BGRA

/-- The console image of line 309, `cv::Mat console(480, 640, CV_8UC3, ...)`. -/
def consoleMat : Mat :=
  { rows := 480, cols := 640, type := CV_8UC3, data := MatData.fresh, step := 1920 }

/-- One iteration of the body of the do-while loop, lines 308-435. -/
def frameIteration (cb : RecognizerCallback) (st : LoopState) (fi : FrameInput) : IterOut :=
  let c0 : List Call :=
    [Call.cameraRead,
     Call.recognizerImageCreateFromRawImage fi.frame.data fi.frame.cols fi.frame.rows
       fi.frame.step (frameRawType fi.frame) fi.imageCreate]
  if fi.imageCreate ≠ RecognizerErrorStatus.RECOGNIZER_ERROR_STATUS_SUCCESS then
    { calls := c0 ++ [Call.cout "Error creating image from frame: " (some fi.imageCreate)],
      state := st, foundResult := none, keystroke := none, exit := IterExit.returned (-1) }
  else
    let debarreledImage : ImagePtr :=
      match fi.dewarp.stored with
      | some p => p
      | none => st.debarreledImage
    let world1 : World := fi.engineEvents.foldl (dispatch cb) st.world
    let c1 : List Call :=
      [Call.recognizerBarrelDewarperDewarp fi.dewarp.status,
       Call.recognizerRecognizeFromImage debarreledImage 1 fi.recognize,
       Call.recognizerResultListGetNumOfResults fi.numResults]
    let foundResult : Int := (examineResults fi).1
    let c2 : List Call := (examineResults fi).2
    let c3 : List Call := if foundResult = 0 then notFoundTextCalls else []
    let c4 : List Call :=
      [Call.recognizerImageDelete ImageVar.image,
       Call.recognizerResultListDelete,
       Call.createImageFromRecognizerImage ImageVar.debarreledImage]
    let debarreledFrame : Mat := createImageFromRecognizerImage fi.debarreledView
    let world2 : World :=
      { world1 with cout := world1.cout ++ (createImageFromRecognizerImageLog fi.debarreledView).2 }
    let c5 : List Call :=
      [Call.imshow "Display window" MatVar.frame fi.frame,
       Call.imshow "Text window" MatVar.console consoleMat,
       (if foundResult ≠ 0 ∧ world2.hasDewarped ≠ 0 then
          Call.imshow "Display debarreled window" MatVar.dewarpedFrame world2.dewarpedFrame
        else
          Call.imshow "Display debarreled window" MatVar.debarreledFrame debarreledFrame),
       Call.waitKey 10 fi.waitKey]
    let keystroke : Int := toChar fi.waitKey
    let c6 : List Call := if keystroke = KEY_SPACE then [Call.recognizerReset] else []
    let world3 : World := if keystroke = KEY_SPACE then { world2 with hasDewarped := 0 } else world2
    { calls := c0 ++ c1 ++ c2 ++ c3 ++ c4 ++ c5 ++ c6,
      state := { debarreledImage := debarreledImage, world := world3 },
      foundResult := some foundResult,
      keystroke := some keystroke,
      exit := if keystroke ≠ KEY_ESCAPE then IterExit.again else IterExit.left }

/-- How the frame loop stands once the supplied frames are used up: still
waiting for the next frame, left through its condition, or main has returned
from inside it. -/
inductive LoopEnd where
  | awaitingFrame
  | left
  | returned (code : Int)
  deriving DecidableEq, Repr

/-- The do-while loop of lines 307-435 run on the frames supplied, one
iteration per frame until an iteration leaves the loop or returns. -/
def frameLoop (cb : RecognizerCallback) : LoopState → List FrameInput → List Call × LoopState × LoopEnd
  | st, [] => ([], st, LoopEnd.awaitingFrame)
  | st, fi :: rest =>
      match (frameIteration cb st fi).exit with
      | IterExit.again =>
          ((frameIteration cb st fi).calls ++ (frameLoop cb (frameIteration cb st fi).state rest).1,
           (frameLoop cb (frameIteration cb st fi).state rest).2)
      | IterExit.left =>
          ((frameIteration cb st fi).calls, (frameIteration cb st fi).state, LoopEnd.left)
      | IterExit.returned code =>
          ((frameIteration cb st fi).calls, (frameIteration cb st fi).state, LoopEnd.returned code)

/-- Lines 246-275 of main: the calls between loading the model and creating the
recognizer, whose statuses main does not look at. -/
def configureCalls (s : SetupInput) : List Call :=
  [Call.recognizerSettingsCreate s.settingsCreate,
   Call.recognizerDeviceInfoCreate s.deviceInfoCreate,
   Call.recognizerDeviceInfoSetNumberOfProcessors 4 s.deviceInfoSetNumberOfProcessors,
   Call.recognizerSettingsSetDeviceInfo s.settingsSetDeviceInfo,
   Call.recognizerSettingsSetZicerModel s.settingsSetZicerModel,
   Call.recognizerSettingsSetMRTDSettings 1 0 s.settingsSetMRTDSettings,
   Call.recognizerSettingsSetLicenseKeyForLicensee "Add licensee here" "Add license key here"
     s.settingsSetLicenseKeyForLicensee,
   Call.recognizerBarrelDewarperCreate s.barrelDewarperCreate]

/-- Lines 294-302 of main: camera resolution and the three windows. -/
def windowCalls : List Call :=
  [Call.cameraSet "CV_CAP_PROP_FRAME_WIDTH" 1279,
   Call.cameraSet "CV_CAP_PROP_FRAME_HEIGHT" 723,
   Call.namedWindow "Display window",
   Call.namedWindow "Display debarreled window",
   Call.namedWindow "Text window"]

/-- Lines 437-446 of main: the cleanup after the loop. -/
def cleanupCalls : List Call :=
  [Call.recognizerDeviceInfoDelete,
   Call.recognizerSettingsDelete,
   Call.recognizerDelete,
   Call.recognizerFreeFileBuffer,
   Call.recognizerImageDelete ImageVar.debarreledImage,
   Call.recognizerBarrelDewarperDelete,
   Call.cameraRelease]

/-- How a run of main on finitely many frames stands: main has returned a
code, or it is in the loop waiting for the next frame. -/
inductive Outcome where
  | returned (code : Int)
  | awaitingFrame
  deriving DecidableEq, Repr

/-- A run of main: the calls made in order, the globals at the end, and the
outcome. -/
structure Run where
  trace : List Call
  world : World
  outcome : Outcome
  deriving DecidableEq, Repr

/-- The function `main` of demo.cpp, run with the answers `s` of the setup calls
on the frames `frames`. -/
def main (s : SetupInput) (frames : List FrameInput) : Run :=
  if s.loadFileToBuffer ≠ RecognizerErrorStatus.RECOGNIZER_ERROR_STATUS_SUCCESS then
    { trace := [Call.recognizerLoadFileToBuffer "ocr_model.zzip" s.loadFileToBuffer,
                Call.cout "Could not load file ocr_model.zzip" none],
      world := World.initial, outcome := Outcome.returned (-1) }
  else if s.recognizerCreate ≠ RecognizerErrorStatus.RECOGNIZER_ERROR_STATUS_SUCCESS then
    { trace := [Call.recognizerLoadFileToBuffer "ocr_model.zzip" s.loadFileToBuffer]
        ++ configureCalls s
        ++ [Call.recognizerCreate s.recognizerCreate,
            Call.cout "Error creating recognizer: " (some s.recognizerCreate)],
      world := World.initial, outcome := Outcome.returned (-1) }
  else if s.cameraIsOpened = false then
    { trace := [Call.recognizerLoadFileToBuffer "ocr_model.zzip" s.loadFileToBuffer]
        ++ configureCalls s
        ++ [Call.recognizerCreate s.recognizerCreate,
            Call.videoCapture 0 s.cameraIsOpened,
            Call.cout "Could not open camera video stream" none],
      world := World.initial, outcome := Outcome.returned (-1) }
  else
    let pre : List Call :=
      [Call.recognizerLoadFileToBuffer "ocr_model.zzip" s.loadFileToBuffer]
        ++ configureCalls s
        ++ [Call.recognizerCreate s.recognizerCreate, Call.videoCapture 0 s.cameraIsOpened]
        ++ windowCalls
    let r := frameLoop buildRecognizerCallback
      { debarreledImage := ImagePtr.null, world := World.initial } frames
    match r.2.2 with
    | LoopEnd.awaitingFrame =>
        { trace := pre ++ r.1, world := r.2.1.world, outcome := Outcome.awaitingFrame }
    | LoopEnd.left =>
        { trace := pre ++ r.1 ++ cleanupCalls, world := r.2.1.world,
          outcome := Outcome.returned 0 }
    | LoopEnd.returned code =>
        { trace := pre ++ r.1, world := r.2.1.world, outcome := Outcome.returned code }

/-! ## Vocabulary of the properties -/

/-- All five accessors of the handle return `RECOGNIZER_ERROR_STATUS_SUCCESS`. -/
def accessorsSucceed (ri : RecognizerImage) : Prop :=
  ri.bytesPerRow.1 = RecognizerErrorStatus.RECOGNIZER_ERROR_STATUS_SUCCESS ∧
  ri.width.1 = RecognizerErrorStatus.RECOGNIZER_ERROR_STATUS_SUCCESS ∧
  ri.height.1 = RecognizerErrorStatus.RECOGNIZER_ERROR_STATUS_SUCCESS ∧
  ri.rawBytes.1 = RecognizerErrorStatus.RECOGNIZER_ERROR_STATUS_SUCCESS ∧
  ri.rawImageType.1 = RecognizerErrorStatus.RECOGNIZER_ERROR_STATUS_SUCCESS

instance (ri : RecognizerImage) : Decidable (accessorsSucceed ri) := by
  unfold accessorsSucceed; infer_instance

/-- The layout tag is one of the four `createImageFromRecognizerImage` handles. -/
def isKnownRawType (t : RawImageType) : Prop :=
  t = RawImageType.RAW_IMAGE_TYPE_BGRA ∨ t = RawImageType.RAW_IMAGE_TYPE_BGR ∨
  t = RawImageType.RAW_IMAGE_TYPE_GRAY ∨ t = RawImageType.RAW_IMAGE_TYPE_NV21

instance (t : RawImageType) : Decidable (isKnownRawType t) := by
  unfold isKnownRawType; infer_instance

/-- An image handle all of whose accessors succeed, with the values given and a
raw-bytes pointer that is not NULL. -/
def imageOf (bpr width height : Int) (data : PixelBuffer) (t : RawImageType) : RecognizerImage :=
  { bytesPerRow := (RecognizerErrorStatus.RECOGNIZER_ERROR_STATUS_SUCCESS, bpr),
    width := (RecognizerErrorStatus.RECOGNIZER_ERROR_STATUS_SUCCESS, width),
    height := (RecognizerErrorStatus.RECOGNIZER_ERROR_STATUS_SUCCESS, height),
    rawBytes := (RecognizerErrorStatus.RECOGNIZER_ERROR_STATUS_SUCCESS, some data),
    rawImageType := (RecognizerErrorStatus.RECOGNIZER_ERROR_STATUS_SUCCESS, t) }

/-- The three conditions under which main treats a frame as a found result: the
count stored in `numResults` is 1 and both probes returned success with a flag
that is not zero. -/
def probesPass (fi : FrameInput) : Prop :=
  fi.numResults = 1 ∧
  (fi.isMrtd.1 = RecognizerErrorStatus.RECOGNIZER_ERROR_STATUS_SUCCESS ∧ fi.isMrtd.2 ≠ 0) ∧
  (fi.valid.1 = RecognizerErrorStatus.RECOGNIZER_ERROR_STATUS_SUCCESS ∧ fi.valid.2 ≠ 0)

instance (fi : FrameInput) : Decidable (probesPass fi) := by
  unfold probesPass; infer_instance

/-- In the calls of an iteration: the result count was read as 1, the MRTD probe
returned success with a true flag, and the validity probe returned success with
a true flag. -/
def probesPassed (calls : List Call) : Prop :=
  Call.recognizerResultListGetNumOfResults 1 ∈ calls ∧
  (∃ f : Int, f ≠ 0 ∧
    Call.recognizerResultIsMRTDResult RecognizerErrorStatus.RECOGNIZER_ERROR_STATUS_SUCCESS f ∈ calls) ∧
  (∃ v : Int, v ≠ 0 ∧
    Call.recognizerResultIsResultValid RecognizerErrorStatus.RECOGNIZER_ERROR_STATUS_SUCCESS v ∈ calls)

/-- The call is one of the MRTD getters. -/
def isGetterCall (c : Call) : Bool :=
  match c with
  | Call.recognizerResultGetMRTD _ => true
  | _ => false

/-- The call is `recognizerImageCreateFromRawImage`. -/
def isImageCreateCall (c : Call) : Bool :=
  match c with
  | Call.recognizerImageCreateFromRawImage _ _ _ _ _ _ => true
  | _ => false

/-- A captured frame for the examples: 1279 x 723, three channels, stride 3837. -/
def sampleFrame : Mat :=
  { rows := 723, cols := 1279, type := CV_8UC3, data := MatData.external ⟨1⟩, step := 3837 }

/-- A frame input for the examples: image creation and dewarping succeed, the
engine shows a dewarped 4 x 2 image, the result list holds one valid MRTD
result, and `cv::waitKey` returns `key`. -/
def sampleInput (key : Int) : FrameInput :=
  { frame := sampleFrame,
    imageCreate := RecognizerErrorStatus.RECOGNIZER_ERROR_STATUS_SUCCESS,
    dewarp := { status := RecognizerErrorStatus.RECOGNIZER_ERROR_STATUS_SUCCESS,
                stored := some (ImagePtr.handle 2) },
    recognize := RecognizerErrorStatus.RECOGNIZER_ERROR_STATUS_SUCCESS,
    engineEvents := [EngineEvent.detectionStarted,
      EngineEvent.showImage (imageOf 12 4 2 ⟨5⟩ RawImageType.RAW_IMAGE_TYPE_BGR)
        ShowImageType.SHOW_IMAGE_TYPE_DEWARPED "dewarped",
      EngineEvent.recognitionFinished],
    numResults := 1,
    isMrtd := (RecognizerErrorStatus.RECOGNIZER_ERROR_STATUS_SUCCESS, 1),
    valid := (RecognizerErrorStatus.RECOGNIZER_ERROR_STATUS_SUCCESS, 1),
    debarreledView := imageOf 3837 1279 723 ⟨3⟩ RawImageType.RAW_IMAGE_TYPE_BGR,
    waitKey := key }

/-- A frame input for the examples on which `recognizerImageCreateFromRawImage`
fails; the other answers are never asked for. -/
def failedInput : FrameInput :=
  { sampleInput (-1) with imageCreate := RecognizerErrorStatus.failure 1 }

/-- A frame input for the examples with no result in the list. -/
def emptyInput (key : Int) : FrameInput :=
  { sampleInput key with numResults := 0, engineEvents := [EngineEvent.detectionFailed] }

/-- The loop state in which main enters the frame loop. -/
def LoopState.initial : LoopState :=
  { debarreledImage := ImagePtr.null, world := World.initial }

/-- Setup answers for the examples: every call succeeds and the camera opens. -/
def sampleSetup : SetupInput :=
  { loadFileToBuffer := RecognizerErrorStatus.RECOGNIZER_ERROR_STATUS_SUCCESS,
    settingsCreate := RecognizerErrorStatus.RECOGNIZER_ERROR_STATUS_SUCCESS,
    deviceInfoCreate := RecognizerErrorStatus.RECOGNIZER_ERROR_STATUS_SUCCESS,
    deviceInfoSetNumberOfProcessors := RecognizerErrorStatus.RECOGNIZER_ERROR_STATUS_SUCCESS,
    settingsSetDeviceInfo := RecognizerErrorStatus.RECOGNIZER_ERROR_STATUS_SUCCESS,
    settingsSetZicerModel := RecognizerErrorStatus.RECOGNIZER_ERROR_STATUS_SUCCESS,
    settingsSetMRTDSettings := RecognizerErrorStatus.RECOGNIZER_ERROR_STATUS_SUCCESS,
    settingsSetLicenseKeyForLicensee := RecognizerErrorStatus.RECOGNIZER_ERROR_STATUS_SUCCESS,
    barrelDewarperCreate := RecognizerErrorStatus.RECOGNIZER_ERROR_STATUS_SUCCESS,
    recognizerCreate := RecognizerErrorStatus.RECOGNIZER_ERROR_STATUS_SUCCESS,
    cameraIsOpened := true }

/-- The call is one main makes between reading the result count and freeing the
frame's handles: fetching the result, a probe, a getter, or a `cv::putText`. -/
def isResultPhaseCall (c : Call) : Bool :=
  match c with
  | Call.recognizerResultListGetResultAtIndex _ => true
  | Call.recognizerResultIsMRTDResult _ _ => true
  | Call.recognizerResultIsResultValid _ _ => true
  | Call.recognizerResultGetMRTD _ => true
  | Call.putText _ _ _ => true
  | _ => false

/-- The call is `cv::waitKey`. -/
def isWaitKeyCall (c : Call) : Bool :=
  match c with
  | Call.waitKey _ _ => true
  | _ => false

/-- The kinds of handle main obtains from the library: the source image of a
frame (variable `image`), the dewarped image (variable `debarreledImage`), the
result list, and the five objects created once. -/
inductive HandleKind where
  | sourceImage
  | dewarpedImage
  | resultList
  | settings
  | deviceInfo
  | recognizer
  | barrelDewarper
  | modelBuffer
  deriving DecidableEq, Repr

/-- The kind of handle a call hands to main, for the calls that hand one out. -/
def creates (c : Call) : Option HandleKind :=
  match c with
  | Call.recognizerImageCreateFromRawImage _ _ _ _ _ _ => some HandleKind.sourceImage
  | Call.recognizerBarrelDewarperDewarp _ => some HandleKind.dewarpedImage
  | Call.recognizerRecognizeFromImage _ _ _ => some HandleKind.resultList
  | Call.recognizerSettingsCreate _ => some HandleKind.settings
  | Call.recognizerDeviceInfoCreate _ => some HandleKind.deviceInfo
  | Call.recognizerCreate _ => some HandleKind.recognizer
  | Call.recognizerBarrelDewarperCreate _ => some HandleKind.barrelDewarper
  | Call.recognizerLoadFileToBuffer _ _ => some HandleKind.modelBuffer
  | _ => none

/-- The kind of handle a call releases, for the release calls. -/
def releases (c : Call) : Option HandleKind :=
  match c with
  | Call.recognizerImageDelete ImageVar.image => some HandleKind.sourceImage
  | Call.recognizerImageDelete ImageVar.debarreledImage => some HandleKind.dewarpedImage
  | Call.recognizerResultListDelete => some HandleKind.resultList
  | Call.recognizerSettingsDelete => some HandleKind.settings
  | Call.recognizerDeviceInfoDelete => some HandleKind.deviceInfo
  | Call.recognizerDelete => some HandleKind.recognizer
  | Call.recognizerBarrelDewarperDelete => some HandleKind.barrelDewarper
  | Call.recognizerFreeFileBuffer => some HandleKind.modelBuffer
  | _ => none

/-- Number of creation calls of a kind in a trace. -/
def creationCalls (k : HandleKind) (t : List Call) : Nat :=
  t.countP (fun c => creates c == some k)

/-- Number of release calls of a kind in a trace. -/
def releaseCalls (k : HandleKind) (t : List Call) : Nat :=
  t.countP (fun c => releases c == some k)

/-- The call is the capture of a frame, `camera >> frame`. -/
def isCameraRead (c : Call) : Bool :=
  match c with
  | Call.cameraRead => true
  | _ => false

/-- Number of frames a run has processed: the captures in its trace. -/
def framesProcessed (t : List Call) : Nat := t.countP isCameraRead

/-- Creation calls of each kind in one iteration of the frame loop. -/
def createdPerFrame (k : HandleKind) : Nat :=
  match k with
  | HandleKind.sourceImage => 1
  | HandleKind.dewarpedImage => 1
  | HandleKind.resultList => 1
  | _ => 0

/-- Release calls of each kind in one iteration of the frame loop. -/
def releasedPerFrame (k : HandleKind) : Nat :=
  match k with
  | HandleKind.sourceImage => 1
  | HandleKind.resultList => 1
  | _ => 0

/-- The three setup steps main checks succeeded. -/
def setupPasses (s : SetupInput) : Prop :=
  s.loadFileToBuffer = RecognizerErrorStatus.RECOGNIZER_ERROR_STATUS_SUCCESS ∧
  s.recognizerCreate = RecognizerErrorStatus.RECOGNIZER_ERROR_STATUS_SUCCESS ∧
  s.cameraIsOpened = true

instance (s : SetupInput) : Decidable (setupPasses s) := by
  unfold setupPasses; infer_instance

/-- The frames lead the loop to its exit by ESCAPE: image creation succeeds on a
run of frames whose keys are not ESCAPE and on the frame after them, whose key
is ESCAPE. -/
def leavesByEscape (frames : List FrameInput) : Prop :=
  ∃ pre fi post, frames = pre ++ fi :: post ∧
    (∀ f ∈ pre, f.imageCreate = RecognizerErrorStatus.RECOGNIZER_ERROR_STATUS_SUCCESS ∧
      toChar f.waitKey ≠ KEY_ESCAPE) ∧
    fi.imageCreate = RecognizerErrorStatus.RECOGNIZER_ERROR_STATUS_SUCCESS ∧
    toChar fi.waitKey = KEY_ESCAPE

/-! ## dateString (demo.cpp lines 162-201) -/

/-- C library `isspace` in the "C" locale: space, and the controls 9 to 13. -/
def isspace (c : Char) : Bool := c.toNat = 32 ∨ (9 ≤ c.toNat ∧ c.toNat ≤ 13)

/-- C library `isdigit`: the characters 0 to 9, codes 48 to 57. -/
def isdigit (c : Char) : Bool := 48 ≤ c.toNat ∧ c.toNat ≤ 57

/-- Value of a decimal digit character. -/
def digitValue (c : Char) : Int := (c.toNat : Int) - 48

/-- The white space a `%d` conversion skips before it reads. -/
def skipSpace : List Char → List Char
  | [] => []
  | c :: cs => if isspace c then skipSpace cs else c :: cs

/-- The conversion `%2d` of the C library on the rest of the input: after the
white space it reads at most two characters, an optional sign (code 45 for
minus, 43 for plus) and decimal digits, at least one digit; it gives the value
and the input left, or `none` when no number is there. -/
def scan2d (s : List Char) : Option (Int × List Char) :=
  match skipSpace s with
  | [] => none
  | c :: rest =>
      if c.toNat = 45 then
        match rest with
        | [] => none
        | d :: rest2 => if isdigit d then some (-(digitValue d), rest2) else none
      else if c.toNat = 43 then
        match rest with
        | [] => none
        | d :: rest2 => if isdigit d then some (digitValue d, rest2) else none
      else if isdigit c then
        match rest with
        | [] => some (digitValue c, [])
        | d :: rest2 =>
            if isdigit d then some (10 * digitValue c + digitValue d, rest2)
            else some (digitValue c, d :: rest2)
      else none

/-- The three values `yearShort`, `month`, `day` after
`sscanf_s(mrzdate, "%2d%2d%2d", &yearShort, &month, &day)`: the conversions run
in order and stop at the first that fails; a variable that was not assigned
keeps the indeterminate value `uninit` gives it. -/
def sscanfDate (s : List Char) (uninit : Int × Int × Int) : Int × Int × Int :=
  match scan2d s with
  | none => uninit
  | some (y, r1) =>
      match scan2d r1 with
      | none => (y, uninit.2.1, uninit.2.2)
      | some (m, r2) =>
          match scan2d r2 with
          | none => (y, m, uninit.2.2)
          | some (d, _) => (y, m, d)

/-- All three conversions of `"%2d%2d%2d"` succeed on the text, with these
values. -/
def parsesTo (s : List Char) (yy month day : Int) : Prop :=
  ∃ r1 r2 r3, scan2d s = some (yy, r1) ∧ scan2d r1 = some (month, r2) ∧
    scan2d r2 = some (day, r3)

/-- Lines 177-194 of dateString: get full year from last 2 digits, in 32-bit
arithmetic. -/
def fullYear (future : Int) (nowYear : Int) (yearShort : Int) : Int :=
  if future ≠ 0 then
    if yearShort > 80 then wrapInt32 (1900 + yearShort) else wrapInt32 (2000 + yearShort)
  else
    if wrapInt32 (yearShort + 2000) > nowYear then wrapInt32 (1900 + yearShort)
    else wrapInt32 (2000 + yearShort)

/-- The text the format `"%d.%d.%d."` gives for year, month and day. -/
def formatDate (year month day : Int) : String :=
  toString year ++ "." ++ toString month ++ "." ++ toString day ++ "."

/-- The text dateString formats: `tm_year` is what `localtime_s` stored for the
current time, `uninit` the indeterminate values of the three locals. -/
def dateText (mrzdate : String) (future : Int) (tm_year : Int) (uninit : Int × Int × Int) :
    String :=
  let nowYear := wrapInt32 (1900 + tm_year)
  let v := sscanfDate mrzdate.toList uninit
  formatDate (fullYear future nowYear v.1) v.2.1 v.2.2

/-- Helper function for converting Machine Readable Zone date string to more
human readable date.  `sprintf_s` writes the text and its terminator into the
12 bytes of `stringBuff`; a text that does not fit is not written (`none`). -/
def dateString (mrzdate : String) (future : Int) (tm_year : Int) (uninit : Int × Int × Int) :
    Option String :=
  if (dateText mrzdate future tm_year uninit).length + 1 ≤ 12 then
    some (dateText mrzdate future tm_year uninit)
  else none

/-! ## Vocabulary of the properties of the display and of the handles -/

/-- The call shows a matrix in the window "Display debarreled window". -/
def isDebarreledWindowShow (c : Call) : Bool :=
  match c with
  | Call.imshow w _ _ => w == "Display debarreled window"
  | _ => false

/-- The call shows `dewarpedFrame` in the window "Display debarreled window". -/
def showsDewarped (c : Call) : Bool :=
  match c with
  | Call.imshow w MatVar.dewarpedFrame _ => w == "Display debarreled window"
  | _ => false

/-- A frame input for the examples: the engine shows a dewarped image during
the recognition, but the result list is empty. -/
def dewarpedNotFound : FrameInput :=
  { sampleInput (-1) with numResults := 0 }

/-- The call is `recognizerRecognizeFromImage`. -/
def isRecognizeCall (c : Call) : Bool :=
  match c with
  | Call.recognizerRecognizeFromImage _ _ _ => true
  | _ => false

/-- The call is `recognizerResultListGetNumOfResults`. -/
def isNumOfResultsCall (c : Call) : Bool :=
  match c with
  | Call.recognizerResultListGetNumOfResults _ => true
  | _ => false

/-- The frame input with other statuses returned by the dewarper and by the
recognition, everything else as it was. -/
def withStatuses (fi : FrameInput) (dewarp recognize : RecognizerErrorStatus) : FrameInput :=
  { fi with dewarp := { fi.dewarp with status := dewarp }, recognize := recognize }

/-- A call with the status of the dewarper or of the recognition blanked, to
compare the calls of two iterations apart from these statuses. -/
def eraseStatus (c : Call) : Call :=
  match c with
  | Call.recognizerBarrelDewarperDewarp _ =>
      Call.recognizerBarrelDewarperDewarp RecognizerErrorStatus.RECOGNIZER_ERROR_STATUS_SUCCESS
  | Call.recognizerRecognizeFromImage p v _ =>
      Call.recognizerRecognizeFromImage p v RecognizerErrorStatus.RECOGNIZER_ERROR_STATUS_SUCCESS
  | c => c

/-- The per-frame handle a call reads or passes on, if any: the source image
(variable `image`) is read by the dewarper and passed to its release; the
dewarped image (variable `debarreledImage`) is read by the recognition, by
`createImageFromRecognizerImage`, by the display of the matrix built on its
bytes, and passed to its release; the result list is read by the count, the
fetch, the probes and the getters, by every `cv::putText` of a string a getter
stored (the strings belong to the result entry), and passed to its release. -/
def uses (c : Call) (k : HandleKind) : Bool :=
  match c, k with
  | Call.recognizerBarrelDewarperDewarp _, HandleKind.sourceImage => true
  | Call.recognizerImageDelete ImageVar.image, HandleKind.sourceImage => true
  | Call.createImageFromRecognizerImage ImageVar.image, HandleKind.sourceImage => true
  | Call.recognizerRecognizeFromImage _ _ _, HandleKind.dewarpedImage => true
  | Call.createImageFromRecognizerImage ImageVar.debarreledImage, HandleKind.dewarpedImage => true
  | Call.imshow _ MatVar.debarreledFrame _, HandleKind.dewarpedImage => true
  | Call.recognizerImageDelete ImageVar.debarreledImage, HandleKind.dewarpedImage => true
  | Call.recognizerResultListGetNumOfResults _, HandleKind.resultList => true
  | Call.recognizerResultListGetResultAtIndex _, HandleKind.resultList => true
  | Call.recognizerResultIsMRTDResult _ _, HandleKind.resultList => true
  | Call.recognizerResultIsResultValid _ _, HandleKind.resultList => true
  | Call.recognizerResultGetMRTD _, HandleKind.resultList => true
  | Call.putText (TextSource.field _) _ _, HandleKind.resultList => true
  | Call.putText TextSource.maleOrFemale _ _, HandleKind.resultList => true
  | Call.putText (TextSource.dateString _ _) _ _, HandleKind.resultList => true
  | Call.recognizerResultListDelete, HandleKind.resultList => true
  | _, _ => false

/-- No call of the list uses a handle after a call that released it. -/
def noUseAfterRelease : List Call → Bool
  | [] => true
  | c :: rest =>
      (match releases c with
       | some k => rest.all (fun d => !uses d k)
       | none => true) && noUseAfterRelease rest

/-- A frame input for the examples: the dewarper fails and stores no handle. -/
def failedDewarpInput : FrameInput :=
  { sampleInput 27 with
      dewarp := { status := RecognizerErrorStatus.failure 4, stored := none } }

/-- An image handle all of whose accessors succeed, with the values given; the
raw-bytes pointer may be NULL (`none`). -/
def imageOfPtr (bpr width height : Int) (data : Option PixelBuffer) (t : RawImageType) :
    RecognizerImage :=
  { bytesPerRow := (RecognizerErrorStatus.RECOGNIZER_ERROR_STATUS_SUCCESS, bpr),
    width := (RecognizerErrorStatus.RECOGNIZER_ERROR_STATUS_SUCCESS, width),
    height := (RecognizerErrorStatus.RECOGNIZER_ERROR_STATUS_SUCCESS, height),
    rawBytes := (RecognizerErrorStatus.RECOGNIZER_ERROR_STATUS_SUCCESS, data),
    rawImageType := (RecognizerErrorStatus.RECOGNIZER_ERROR_STATUS_SUCCESS, t) }

/-- A frame input for the examples: the dewarper returns a failure status and
yet stores a handle in `debarreledImage`. -/
def failedDewarpStoring : FrameInput :=
  { sampleInput 27 with
      dewarp := { status := RecognizerErrorStatus.failure 4,
                  stored := some (ImagePtr.handle 9) } }

/-! # Properties -/

/-! ## createImageFromRecognizerImage: lemmas -/

/-- On a handle whose accessors all succeed the function is the switch on the
layout tag. -/
theorem createImage_of_succeed (ri : RecognizerImage) (h : accessorsSucceed ri) :
    createImageFromRecognizerImage ri =
      match ri.rawImageType.2 with
      | RawImageType.RAW_IMAGE_TYPE_BGRA =>
          { rows := ri.height.2, cols := ri.width.2, type := CV_8UC4,
            data := MatData.ofPtr ri.rawBytes.2, step := toSizeT ri.bytesPerRow.2 }
      | RawImageType.RAW_IMAGE_TYPE_BGR =>
          { rows := ri.height.2, cols := ri.width.2, type := CV_8UC3,
            data := MatData.ofPtr ri.rawBytes.2, step := toSizeT ri.bytesPerRow.2 }
      | RawImageType.RAW_IMAGE_TYPE_GRAY =>
          { rows := ri.height.2, cols := ri.width.2, type := CV_8UC1,
            data := MatData.ofPtr ri.rawBytes.2, step := toSizeT ri.bytesPerRow.2 }
      | RawImageType.RAW_IMAGE_TYPE_NV21 =>
          { rows := wrapInt32 (ri.height.2 + Int.tdiv ri.height.2 2), cols := ri.width.2,
            type := CV_8UC1, data := MatData.ofPtr ri.rawBytes.2, step := toSizeT ri.bytesPerRow.2 }
      | RawImageType.other _ => Mat.default := by
  obtain ⟨h1, h2, h3, h4, h5⟩ := h
  simp only [createImageFromRecognizerImage, createImageFromRecognizerImageLog, h1, h2, h3, h4, h5,
    ne_eq, not_true_eq_false, if_false]
  cases ri.rawImageType.2 <;> rfl

/-- A failed accessor makes the function return `cv::Mat()`. -/
theorem createImage_of_fail (ri : RecognizerImage) (h : ¬ accessorsSucceed ri) :
    createImageFromRecognizerImage ri = Mat.default := by
  unfold accessorsSucceed at h
  simp only [createImageFromRecognizerImage, createImageFromRecognizerImageLog]
  split_ifs <;> first | rfl | (exfalso; apply h; simp_all)

/-- The sum `h + h / 2` of a height in range is not altered by 32-bit arithmetic. -/
theorem wrapInt32_nv21 (h : Int) (h0 : 0 ≤ h) (h1 : h ≤ 1431655765) :
    wrapInt32 (h + Int.tdiv h 2) = h + h / 2 := by
  rw [Int.tdiv_eq_ediv h0 (by decide)]
  unfold wrapInt32
  omega

/-- For a positive 32-bit height the row count of the NV21 branch is not zero. -/
theorem wrapInt32_nv21_ne_zero (h : Int) (h0 : 0 < h) (h1 : h ≤ INT_MAX) :
    wrapInt32 (h + Int.tdiv h 2) ≠ 0 := by
  rw [Int.tdiv_eq_ediv (le_of_lt h0) (by decide)]
  unfold wrapInt32
  unfold INT_MAX at h1
  omega

/-! ## The conversion to size_t -/

/-- A stride that is not negative is kept by the conversion to `size_t`. -/
theorem toSizeT_of_nonneg (x : Int) (h : 0 ≤ x) : ((toSizeT x : Nat) : Int) = x := by
  unfold toSizeT
  rw [if_pos h]
  exact Int.toNat_of_nonneg h

/-- A `size_t` value read back as an `int` and converted again is itself. -/
theorem toSizeT_natCast (n : Nat) : toSizeT (n : Int) = n := by
  unfold toSizeT
  rw [if_pos (Int.ofNat_nonneg n)]
  exact Int.toNat_ofNat n

/-- A negative stride is turned into a large `size_t`, never kept. -/
theorem toSizeT_of_neg (x : Int) (h : x < 0) : ((toSizeT x : Nat) : Int) ≠ x := by
  have : (0 : Int) ≤ ((toSizeT x : Nat) : Int) := Int.ofNat_nonneg _
  omega

/-! ## C6: the NV21 branch -/

/-- C7: when the accessors of the handle created from a frame return the width,
height, stride and layout passed at creation (the frame's cols, rows, step and
the demo's layout tag), then for a frame with 3 or 4 channels the matrix
createImageFromRecognizerImage returns has the frame's rows, cols, row stride
and channel count; and on any handle whose accessors succeed BGRA gives 4
channels, BGR 3 and GRAY 1. -/
theorem C7_round_trip :
    (∀ (frame : Mat) (ri : RecognizerImage),
      (frame.channels = 3 ∨ frame.channels = 4) →
      accessorsSucceed ri →
      ri.width.2 = frame.cols → ri.height.2 = frame.rows → ri.bytesPerRow.2 = frame.step →
      ri.rawImageType.2 = frameRawType frame →
      (createImageFromRecognizerImage ri).rows = frame.rows ∧
      (createImageFromRecognizerImage ri).cols = frame.cols ∧
      (createImageFromRecognizerImage ri).step = frame.step ∧
      (createImageFromRecognizerImage ri).channels = frame.channels) ∧
    (∀ ri : RecognizerImage, accessorsSucceed ri →
      (ri.rawImageType.2 = RawImageType.RAW_IMAGE_TYPE_BGRA →
        (createImageFromRecognizerImage ri).channels = 4) ∧
      (ri.rawImageType.2 = RawImageType.RAW_IMAGE_TYPE_BGR →
        (createImageFromRecognizerImage ri).channels = 3) ∧
      (ri.rawImageType.2 = RawImageType.RAW_IMAGE_TYPE_GRAY →
        (createImageFromRecognizerImage ri).channels = 1)) := by
  constructor
  · intro frame ri hch hs hw hh hb ht
    have hstep : toSizeT ri.bytesPerRow.2 = frame.step := by
      rw [hb]
      exact toSizeT_natCast frame.step
    rw [createImage_of_succeed ri hs, ht]
    unfold frameRawType
    rcases hch with h3 | h4
    · rw [if_pos h3]
      exact ⟨hh, hw, hstep, h3.symm ▸ rfl⟩
    · have h3 : ¬ (frame.channels = 3) := by omega
      rw [if_neg h3]
      exact ⟨hh, hw, hstep, h4.symm ▸ rfl⟩
  · intro ri hs
    rw [createImage_of_succeed ri hs]
    refine ⟨?_, ?_, ?_⟩ <;> intro ht <;> rw [ht] <;> rfl

/-- C7 at a concrete frame: a 1279 x 723 three-channel frame with stride 3837
comes back with the same shape. -/
theorem C7_round_trip_witness :
    (createImageFromRecognizerImage
        (imageOf 3837 1279 723 ⟨1⟩ RawImageType.RAW_IMAGE_TYPE_BGR)).rows = 723 ∧
    (createImageFromRecognizerImage
        (imageOf 3837 1279 723 ⟨1⟩ RawImageType.RAW_IMAGE_TYPE_BGR)).cols = 1279 ∧
    (createImageFromRecognizerImage
        (imageOf 3837 1279 723 ⟨1⟩ RawImageType.RAW_IMAGE_TYPE_BGR)).step = 3837 ∧
    (createImageFromRecognizerImage
        (imageOf 3837 1279 723 ⟨1⟩ RawImageType.RAW_IMAGE_TYPE_BGR)).channels = 3 :=
  C7_round_trip.1
    { rows := 723, cols := 1279, type := CV_8UC3, data := MatData.external ⟨1⟩, step := 3837 }
    (imageOf 3837 1279 723 ⟨1⟩ RawImageType.RAW_IMAGE_TYPE_BGR)
    (by decide) (by decide) rfl rfl rfl (by decide)

/-! ## C10: failures of the image adapter -/

/-- A clone never points at a buffer of somebody else. -/
theorem clone_data_ne_external (m : Mat) (b : PixelBuffer) : m.clone.data ≠ MatData.external b := by
  unfold Mat.clone
  cases m.data <;> simp [Mat.default]

/-- C4: for every call onShowImage(image, showType, name), when showType is
SHOW_IMAGE_TYPE_DEWARPED, dewarpedFrame becomes the clone of the matrix built
from the image (never a view onto a buffer of the engine: when the matrix built
is a view of the image's bytes, the clone has the same rows, cols and type and
storage of its own holding a copy of those bytes) and hasDewarped becomes 1; for
every other showType dewarpedFrame and hasDewarped are left unchanged. -/
theorem C4_onShowImage (image : RecognizerImage) (showType : ShowImageType) (name : String)
    (w : World) :
    (showType = ShowImageType.SHOW_IMAGE_TYPE_DEWARPED →
      (onShowImage image showType name w).dewarpedFrame
        = (createImageFromRecognizerImage image).clone ∧
      (∀ b, (onShowImage image showType name w).dewarpedFrame.data ≠ MatData.external b) ∧
      (∀ b, (createImageFromRecognizerImage image).data = MatData.external b →
        (onShowImage image showType name w).dewarpedFrame.data = MatData.owned b ∧
        (onShowImage image showType name w).dewarpedFrame.rows
          = (createImageFromRecognizerImage image).rows ∧
        (onShowImage image showType name w).dewarpedFrame.cols
          = (createImageFromRecognizerImage image).cols ∧
        (onShowImage image showType name w).dewarpedFrame.type
          = (createImageFromRecognizerImage image).type) ∧
      (onShowImage image showType name w).hasDewarped = 1) ∧
    (showType ≠ ShowImageType.SHOW_IMAGE_TYPE_DEWARPED →
      (onShowImage image showType name w).dewarpedFrame = w.dewarpedFrame ∧
      (onShowImage image showType name w).hasDewarped = w.hasDewarped) := by
  constructor
  · intro h
    simp only [onShowImage, h, if_true]
    refine ⟨trivial, fun b => clone_data_ne_external _ b, ?_, trivial⟩
    intro b hb
    simp only [Mat.clone, hb]
    exact ⟨trivial, trivial, trivial, trivial⟩
  · intro h
    simp only [onShowImage, h, if_false]
    exact ⟨trivial, trivial⟩

/-- C4 at a concrete call: a dewarped 4 x 2 BGR image replaces the stored frame
by a copy and sets the flag; the same image shown with another type changes
nothing. -/
theorem C4_onShowImage_witness :
    (onShowImage (imageOf 12 4 2 ⟨5⟩ RawImageType.RAW_IMAGE_TYPE_BGR)
        ShowImageType.SHOW_IMAGE_TYPE_DEWARPED "dewarped" World.initial).dewarpedFrame.data
      = MatData.owned ⟨5⟩ ∧
    (onShowImage (imageOf 12 4 2 ⟨5⟩ RawImageType.RAW_IMAGE_TYPE_BGR)
        ShowImageType.SHOW_IMAGE_TYPE_DEWARPED "dewarped" World.initial).hasDewarped = 1 ∧
    (onShowImage (imageOf 12 4 2 ⟨5⟩ RawImageType.RAW_IMAGE_TYPE_BGR)
        (ShowImageType.other 0) "original" World.initial).hasDewarped = 0 :=
  ⟨(((C4_onShowImage (imageOf 12 4 2 ⟨5⟩ RawImageType.RAW_IMAGE_TYPE_BGR)
        ShowImageType.SHOW_IMAGE_TYPE_DEWARPED "dewarped" World.initial).1 rfl).2.2.1
      ⟨5⟩ rfl).1,
   ((C4_onShowImage (imageOf 12 4 2 ⟨5⟩ RawImageType.RAW_IMAGE_TYPE_BGR)
        ShowImageType.SHOW_IMAGE_TYPE_DEWARPED "dewarped" World.initial).1 rfl).2.2.2,
   ((C4_onShowImage (imageOf 12 4 2 ⟨5⟩ RawImageType.RAW_IMAGE_TYPE_BGR)
        (ShowImageType.other 0) "original" World.initial).2 (by decide)).2⟩

/-! ## C8: the callback set -/

/-- C8: onDetectedObject returns 1, a non-zero value, for every input (any point
array including NULL, any point count including 0, any image size, each of the
six detection statuses), and buildRecognizerCallback leaves
onShouldStopRecognition and onProgress NULL while it sets the other six hooks to
the handlers of the demo. -/
theorem C8_callbacks_never_stop :
    (∀ (points : Option (List PPPoint)) (pointsSize : Nat) (imageSize : PPSize)
        (ds : PPDetectionStatus) (w : World),
      (onDetectedObject points pointsSize imageSize ds w).2 = 1 ∧
      (onDetectedObject points pointsSize imageSize ds w).2 ≠ 0) ∧
    buildRecognizerCallback.onShouldStopRecognition = none ∧
    buildRecognizerCallback.onProgress = none ∧
    buildRecognizerCallback.onDetectionStarted = some onDetectionStarted ∧
    buildRecognizerCallback.onDetectedObject = some onDetectedObject ∧
    buildRecognizerCallback.onDetectionFailed = some onDetectionFailed ∧
    buildRecognizerCallback.onRecognitionStarted = some onRecognitionStarted ∧
    buildRecognizerCallback.onRecognitionFinished = some onRecognitionFinished ∧
    buildRecognizerCallback.onShowImage = some onShowImage := by
  refine ⟨?_, rfl, rfl, rfl, rfl, rfl, rfl, rfl, rfl⟩
  intro points pointsSize imageSize ds w
  constructor
  · rfl
  · show (1 : Int) ≠ 0
    decide

/-! ## C1: when a frame counts as a found result -/

/-- The calls of an iteration whose image creation succeeded. -/
theorem frameIteration_calls_of_created (cb : RecognizerCallback) (st : LoopState)
    (fi : FrameInput)
    (hc : fi.imageCreate = RecognizerErrorStatus.RECOGNIZER_ERROR_STATUS_SUCCESS) :
    (frameIteration cb st fi).calls =
      [Call.cameraRead,
       Call.recognizerImageCreateFromRawImage fi.frame.data fi.frame.cols fi.frame.rows
         fi.frame.step (frameRawType fi.frame) fi.imageCreate,
       Call.recognizerBarrelDewarperDewarp fi.dewarp.status,
       Call.recognizerRecognizeFromImage
         (match fi.dewarp.stored with
          | some p => p
          | none => st.debarreledImage) 1 fi.recognize,
       Call.recognizerResultListGetNumOfResults fi.numResults]
      ++ (examineResults fi).2
      ++ (if (examineResults fi).1 = 0 then notFoundTextCalls else [])
      ++ [Call.recognizerImageDelete ImageVar.image,
          Call.recognizerResultListDelete,
          Call.createImageFromRecognizerImage ImageVar.debarreledImage,
          Call.imshow "Display window" MatVar.frame fi.frame,
          Call.imshow "Text window" MatVar.console consoleMat,
          (if (examineResults fi).1 ≠ 0 ∧
              (fi.engineEvents.foldl (dispatch cb) st.world).hasDewarped ≠ 0 then
             Call.imshow "Display debarreled window" MatVar.dewarpedFrame
               (fi.engineEvents.foldl (dispatch cb) st.world).dewarpedFrame
           else
             Call.imshow "Display debarreled window" MatVar.debarreledFrame
               (createImageFromRecognizerImage fi.debarreledView)),
          Call.waitKey 10 fi.waitKey]
      ++ (if toChar fi.waitKey = KEY_SPACE then [Call.recognizerReset] else []) := by
  simp [frameIteration, hc]

/-- The iteration whose image creation failed. -/
theorem frameIteration_of_not_created (cb : RecognizerCallback) (st : LoopState)
    (fi : FrameInput)
    (hc : fi.imageCreate ≠ RecognizerErrorStatus.RECOGNIZER_ERROR_STATUS_SUCCESS) :
    frameIteration cb st fi =
      { calls := [Call.cameraRead,
          Call.recognizerImageCreateFromRawImage fi.frame.data fi.frame.cols fi.frame.rows
            fi.frame.step (frameRawType fi.frame) fi.imageCreate,
          Call.cout "Error creating image from frame: " (some fi.imageCreate)],
        state := st, foundResult := none, keystroke := none, exit := IterExit.returned (-1) } := by
  simp [frameIteration, hc]

/-- The value of `foundResult` is 1 exactly when the three conditions hold, and
0 otherwise. -/
theorem examineResults_fst (fi : FrameInput) :
    (examineResults fi).1 = if probesPass fi then 1 else 0 := by
  unfold examineResults probesPass
  split_ifs <;> simp_all

/-- In an iteration whose image creation succeeded, the calls show the three
conditions exactly when the answers of the library satisfy them. -/
theorem probesPassed_iff (cb : RecognizerCallback) (st : LoopState) (fi : FrameInput)
    (hc : fi.imageCreate = RecognizerErrorStatus.RECOGNIZER_ERROR_STATUS_SUCCESS) :
    probesPassed (frameIteration cb st fi).calls ↔ probesPass fi := by
  rw [frameIteration_calls_of_created cb st fi hc]
  unfold probesPassed probesPass examineResults getterCalls resultTextCalls notFoundTextCalls
  by_cases h1 : fi.numResults = 1
  · by_cases h2 : fi.isMrtd.1 = RecognizerErrorStatus.RECOGNIZER_ERROR_STATUS_SUCCESS ∧ fi.isMrtd.2 ≠ 0
    · by_cases h3 : fi.valid.1 = RecognizerErrorStatus.RECOGNIZER_ERROR_STATUS_SUCCESS ∧ fi.valid.2 ≠ 0
      · simp [h1, h2, h3]
        split_ifs <;> simp [h2.2, h3.2]
      · simp [h1, h2, h3]
        intro hv hs
        exact h3 ⟨hs.symm, hv⟩
    · simp [h1, h2]
  · simp [h1]

/-- In an iteration whose image creation succeeded, the getters are called when
the three conditions hold, all twelve of them, and none is called otherwise. -/
theorem getters_iff (cb : RecognizerCallback) (st : LoopState) (fi : FrameInput)
    (hc : fi.imageCreate = RecognizerErrorStatus.RECOGNIZER_ERROR_STATUS_SUCCESS)
    (g : MRTDGetter) :
    Call.recognizerResultGetMRTD g ∈ (frameIteration cb st fi).calls ↔ probesPass fi := by
  rw [frameIteration_calls_of_created cb st fi hc]
  unfold probesPass examineResults getterCalls resultTextCalls notFoundTextCalls
  by_cases h1 : fi.numResults = 1
  · by_cases h2 : fi.isMrtd.1 = RecognizerErrorStatus.RECOGNIZER_ERROR_STATUS_SUCCESS ∧ fi.isMrtd.2 ≠ 0
    · by_cases h3 : fi.valid.1 = RecognizerErrorStatus.RECOGNIZER_ERROR_STATUS_SUCCESS ∧ fi.valid.2 ≠ 0
      · simp [h1, h2, h3]
        split_ifs <;> cases g <;> simp
      · simp [h1, h2, h3]
    · simp [h1, h2]
  · simp [h1]

/-- C1: in every iteration of the frame loop, foundResult is set to 1 and the
MRTD field getters are called (all twelve) if and only if the result count read
was 1, recognizerResultIsMRTDResult returned success with a true flag and
recognizerResultIsResultValid returned success with a true flag; in every other
case no MRTD getter is called and foundResult is not set to 1: it stays 0, or
main has returned before declaring it, when the image creation failed.  In an
iteration whose image creation succeeded the three conditions are met exactly
when the library's answers for the frame meet them. -/
theorem C1_found_result (cb : RecognizerCallback) (st : LoopState) (fi : FrameInput) :
    (probesPassed (frameIteration cb st fi).calls ↔
      (frameIteration cb st fi).foundResult = some 1) ∧
    (probesPassed (frameIteration cb st fi).calls ↔
      ∀ g, Call.recognizerResultGetMRTD g ∈ (frameIteration cb st fi).calls) ∧
    (¬ probesPassed (frameIteration cb st fi).calls →
      (∀ g, Call.recognizerResultGetMRTD g ∉ (frameIteration cb st fi).calls) ∧
      ((frameIteration cb st fi).foundResult = some 0 ∨
        ((frameIteration cb st fi).foundResult = none ∧
          fi.imageCreate ≠ RecognizerErrorStatus.RECOGNIZER_ERROR_STATUS_SUCCESS))) ∧
    (fi.imageCreate = RecognizerErrorStatus.RECOGNIZER_ERROR_STATUS_SUCCESS →
      (probesPassed (frameIteration cb st fi).calls ↔ probesPass fi) ∧
      (frameIteration cb st fi).foundResult = some (if probesPass fi then 1 else 0)) := by
  by_cases hc : fi.imageCreate = RecognizerErrorStatus.RECOGNIZER_ERROR_STATUS_SUCCESS
  · have hp := probesPassed_iff cb st fi hc
    have hg := getters_iff cb st fi hc
    have hf : (frameIteration cb st fi).foundResult = some (if probesPass fi then 1 else 0) := by
      simp [frameIteration, hc, examineResults_fst]
    refine ⟨?_, ?_, ?_, fun _ => ⟨hp, hf⟩⟩
    · rw [hp, hf]
      by_cases h : probesPass fi <;> simp [h]
    · rw [hp]
      constructor
      · intro h g
        exact (hg g).2 h
      · intro h
        exact (hg MRTDGetter.Sex).1 (h MRTDGetter.Sex)
    · intro h
      rw [hp] at h
      refine ⟨fun g hm => h ((hg g).1 hm), Or.inl ?_⟩
      rw [hf, if_neg h]
  · have hn : ¬ probesPassed (frameIteration cb st fi).calls := by
      rw [frameIteration_of_not_created cb st fi hc]
      intro h
      have := h.1
      simp at this
    have hg : ∀ g, Call.recognizerResultGetMRTD g ∉ (frameIteration cb st fi).calls := by
      intro g
      rw [frameIteration_of_not_created cb st fi hc]
      simp
    have hf : (frameIteration cb st fi).foundResult = none := by
      rw [frameIteration_of_not_created cb st fi hc]
    refine ⟨?_, ?_, fun _ => ⟨hg, Or.inr ⟨hf, hc⟩⟩, fun h => absurd h hc⟩
    · constructor
      · intro h
        exact absurd h hn
      · intro h
        rw [hf] at h
        cases h
    · constructor
      · intro h
        exact absurd h hn
      · intro h
        exact absurd (h MRTDGetter.Sex) (hg MRTDGetter.Sex)

/-- Every call made while looking at the result list is a result-phase call. -/
theorem examineResults_phase (fi : FrameInput) :
    ∀ c ∈ (examineResults fi).2, isResultPhaseCall c = true := by
  unfold examineResults
  split_ifs <;> intro c hm <;> refine List.all_eq_true.mp ?_ c hm <;> rfl

/-- The default message consists of result-phase calls. -/
theorem notFound_phase (b : Prop) [Decidable b] :
    ∀ c ∈ (if b then notFoundTextCalls else []), isResultPhaseCall c = true := by
  split_ifs <;> intro c hm <;> refine List.all_eq_true.mp ?_ c hm <;> rfl

/-- A predicate that is false on result-phase calls counts nothing among the
calls made while looking at the result list. -/
theorem countP_examineResults (p : Call → Bool)
    (hp : ∀ c, isResultPhaseCall c = true → p c = false) (fi : FrameInput) :
    (examineResults fi).2.countP p = 0 := by
  rw [List.countP_eq_zero]
  intro c hm
  simp [hp c (examineResults_phase fi c hm)]

/-- A predicate that is false on result-phase calls counts nothing in the
default message. -/
theorem countP_notFound (p : Call → Bool)
    (hp : ∀ c, isResultPhaseCall c = true → p c = false) (b : Prop) [Decidable b] :
    (if b then notFoundTextCalls else []).countP p = 0 := by
  rw [List.countP_eq_zero]
  intro c hm
  simp [hp c (notFound_phase b c hm)]

/-! ## C5: the layout tag of a captured frame -/


/-- C5: in every iteration of the frame loop recognizerImageCreateFromRawImage
is called once, on the captured frame: the width, height and stride passed are
the frame's cols, rows and step, and the layout tag depends on the channel count
alone: it is RAW_IMAGE_TYPE_BGR exactly when the channel count is 3, and
RAW_IMAGE_TYPE_BGRA for a 4-channel frame and for every other channel count. -/
theorem C5_raw_layout (cb : RecognizerCallback) (st : LoopState) (fi : FrameInput) :
    (frameIteration cb st fi).calls.countP isImageCreateCall = 1 ∧
    (∀ d w h b t r,
      Call.recognizerImageCreateFromRawImage d w h b t r ∈ (frameIteration cb st fi).calls →
      d = fi.frame.data ∧ w = fi.frame.cols ∧ h = fi.frame.rows ∧ b = fi.frame.step ∧
      r = fi.imageCreate ∧
      (t = RawImageType.RAW_IMAGE_TYPE_BGR ↔ fi.frame.channels = 3) ∧
      (fi.frame.channels = 4 → t = RawImageType.RAW_IMAGE_TYPE_BGRA) ∧
      (fi.frame.channels ≠ 3 → t = RawImageType.RAW_IMAGE_TYPE_BGRA)) := by
  have ht : (frameRawType fi.frame = RawImageType.RAW_IMAGE_TYPE_BGR ↔ fi.frame.channels = 3) ∧
      (fi.frame.channels = 4 → frameRawType fi.frame = RawImageType.RAW_IMAGE_TYPE_BGRA) ∧
      (fi.frame.channels ≠ 3 → frameRawType fi.frame = RawImageType.RAW_IMAGE_TYPE_BGRA) := by
    unfold frameRawType
    by_cases h3 : fi.frame.channels = 3
    · simp [h3]
    · simp [h3]
  by_cases hc : fi.imageCreate = RecognizerErrorStatus.RECOGNIZER_ERROR_STATUS_SUCCESS
  · rw [frameIteration_calls_of_created cb st fi hc]
    constructor
    · simp only [List.countP_append, countP_examineResults isImageCreateCall (fun c h => by
        cases c <;> first | rfl | cases h), countP_notFound isImageCreateCall (fun c h => by
        cases c <;> first | rfl | cases h)]
      split_ifs <;> rfl
    · intro d w h b t r hm
      simp only [List.mem_append] at hm
      rcases hm with (((hm | hm) | hm) | hm) | hm
      · simp at hm
        obtain ⟨hd, hw, hh, hb, htt, hr⟩ := hm
        subst htt
        exact ⟨hd, hw, hh, hb, hr, ht⟩
      · cases examineResults_phase fi _ hm
      · cases notFound_phase _ _ hm
      · split_ifs at hm <;> simp at hm
      · split_ifs at hm <;> simp at hm
  · rw [frameIteration_of_not_created cb st fi hc]
    constructor
    · rfl
    · intro d w h b t r hm
      simp at hm
      obtain ⟨hd, hw, hh, hb, htt, hr⟩ := hm
      subst htt
      exact ⟨hd, hw, hh, hb, hr, ht⟩

/-! ## C9: reset, hasDewarped and the end of the loop -/

/-- The cast to `char` leaves the values of a `char` as they are. -/
theorem toChar_of_small (k : Int) (h0 : -128 ≤ k) (h1 : k ≤ 127) : toChar k = k := by
  unfold toChar
  omega

/-- C9 as stated fails in an iteration whose image creation fails: main returns
-1 from inside the loop, so the loop ends, although no key was read there (no
`cv::waitKey` call, `keystroke` never assigned), let alone ESCAPE. -/
theorem C9_counterexample :
    (frameIteration buildRecognizerCallback LoopState.initial failedInput).exit
      = IterExit.returned (-1) ∧
    (frameIteration buildRecognizerCallback LoopState.initial failedInput).exit
      ≠ IterExit.again ∧
    (frameIteration buildRecognizerCallback LoopState.initial failedInput).keystroke = none ∧
    (frameIteration buildRecognizerCallback LoopState.initial failedInput).keystroke
      ≠ some KEY_ESCAPE ∧
    (frameIteration buildRecognizerCallback LoopState.initial failedInput).calls.countP
      isWaitKeyCall = 0 ∧
    (frameIteration buildRecognizerCallback LoopState.initial failedInput).calls =
      [Call.cameraRead,
       Call.recognizerImageCreateFromRawImage (MatData.external ⟨1⟩) 1279 723 3837
         RawImageType.RAW_IMAGE_TYPE_BGR (RecognizerErrorStatus.failure 1),
       Call.cout "Error creating image from frame: " (some (RecognizerErrorStatus.failure 1))] := by
  refine ⟨rfl, ?_, rfl, ?_, rfl, rfl⟩
  · intro h
    cases h
  · intro h
    cases h

/-- C9 as amended: in every iteration of the frame loop in which image creation
succeeds, a key is read (keystroke is the char value of what cv::waitKey
returned), recognizerReset is called if and only if that key is SPACE (32), and
then it is the last call of the iteration, after the recognize call and after
the release of the result list; the same key sets hasDewarped to 0, and any
other key leaves hasDewarped as the callbacks of the recognize call left it; the
loop ends if and only if the key is ESCAPE (27).  In an iteration in which image
creation fails main returns -1: the loop ends with no key read, no reset, and
the globals untouched. -/
theorem C9_reset_and_exit (cb : RecognizerCallback) (st : LoopState) (fi : FrameInput) :
    (fi.imageCreate = RecognizerErrorStatus.RECOGNIZER_ERROR_STATUS_SUCCESS →
      (frameIteration cb st fi).keystroke = some (toChar fi.waitKey) ∧
      Call.waitKey 10 fi.waitKey ∈ (frameIteration cb st fi).calls ∧
      (-128 ≤ fi.waitKey → fi.waitKey ≤ 127 → toChar fi.waitKey = fi.waitKey) ∧
      (Call.recognizerReset ∈ (frameIteration cb st fi).calls ↔
        (frameIteration cb st fi).keystroke = some KEY_SPACE) ∧
      (Call.recognizerReset ∈ (frameIteration cb st fi).calls →
        ∃ a b c p r,
          (frameIteration cb st fi).calls =
            a ++ [Call.recognizerRecognizeFromImage p 1 r] ++ b
              ++ [Call.recognizerResultListDelete] ++ c ++ [Call.recognizerReset] ∧
          Call.recognizerReset ∉ a ∧ Call.recognizerReset ∉ b ∧ Call.recognizerReset ∉ c) ∧
      ((frameIteration cb st fi).keystroke = some KEY_SPACE →
        (frameIteration cb st fi).state.world.hasDewarped = 0) ∧
      ((frameIteration cb st fi).keystroke ≠ some KEY_SPACE →
        (frameIteration cb st fi).state.world.hasDewarped
          = (fi.engineEvents.foldl (dispatch cb) st.world).hasDewarped) ∧
      ((frameIteration cb st fi).exit ≠ IterExit.again ↔
        (frameIteration cb st fi).keystroke = some KEY_ESCAPE) ∧
      ((frameIteration cb st fi).exit = IterExit.left ↔
        (frameIteration cb st fi).keystroke = some KEY_ESCAPE)) ∧
    (fi.imageCreate ≠ RecognizerErrorStatus.RECOGNIZER_ERROR_STATUS_SUCCESS →
      (frameIteration cb st fi).exit = IterExit.returned (-1) ∧
      (frameIteration cb st fi).keystroke = none ∧
      (frameIteration cb st fi).calls.countP isWaitKeyCall = 0 ∧
      Call.recognizerReset ∉ (frameIteration cb st fi).calls ∧
      (frameIteration cb st fi).state = st) := by
  constructor
  · intro hc
    have hk : (frameIteration cb st fi).keystroke = some (toChar fi.waitKey) := by
      simp [frameIteration, hc]
    have hcalls := frameIteration_calls_of_created cb st fi hc
    have hreset : Call.recognizerReset ∈ (frameIteration cb st fi).calls ↔
        toChar fi.waitKey = KEY_SPACE := by
      rw [hcalls]
      simp only [List.mem_append]
      constructor
      · rintro ((((hm | hm) | hm) | hm) | hm)
        · simp at hm
        · cases examineResults_phase fi _ hm
        · cases notFound_phase _ _ hm
        · split_ifs at hm <;> simp at hm
        · by_contra hne
          simp [hne] at hm
      · intro h
        right
        simp [h]
    refine ⟨hk, ?_, toChar_of_small fi.waitKey, ?_, ?_, ?_, ?_, ?_, ?_⟩
    · rw [hcalls]
      simp
    · rw [hreset, hk]
      simp
    · intro hm
      have hsp := hreset.1 hm
      refine ⟨[Call.cameraRead,
          Call.recognizerImageCreateFromRawImage fi.frame.data fi.frame.cols fi.frame.rows
            fi.frame.step (frameRawType fi.frame) fi.imageCreate,
          Call.recognizerBarrelDewarperDewarp fi.dewarp.status],
        [Call.recognizerResultListGetNumOfResults fi.numResults] ++ (examineResults fi).2
          ++ (if (examineResults fi).1 = 0 then notFoundTextCalls else [])
          ++ [Call.recognizerImageDelete ImageVar.image],
        [Call.createImageFromRecognizerImage ImageVar.debarreledImage,
          Call.imshow "Display window" MatVar.frame fi.frame,
          Call.imshow "Text window" MatVar.console consoleMat,
          (if (examineResults fi).1 ≠ 0 ∧
              (fi.engineEvents.foldl (dispatch cb) st.world).hasDewarped ≠ 0 then
             Call.imshow "Display debarreled window" MatVar.dewarpedFrame
               (fi.engineEvents.foldl (dispatch cb) st.world).dewarpedFrame
           else
             Call.imshow "Display debarreled window" MatVar.debarreledFrame
               (createImageFromRecognizerImage fi.debarreledView)),
          Call.waitKey 10 fi.waitKey],
        (match fi.dewarp.stored with
         | some p => p
         | none => st.debarreledImage), fi.recognize, ?_, ?_, ?_, ?_⟩
      · rw [hcalls]
        simp [hsp]
      · simp
      · simp only [List.mem_append]
        rintro (((hm | hm) | hm) | hm)
        · simp at hm
        · cases examineResults_phase fi _ hm
        · cases notFound_phase _ _ hm
        · simp at hm
      · intro hm
        split_ifs at hm <;> simp at hm
    · intro h
      rw [hk] at h
      have h2 : toChar fi.waitKey = KEY_SPACE := by
        simpa using h
      simp [frameIteration, hc, h2]
    · intro h
      rw [hk] at h
      have h2 : ¬ toChar fi.waitKey = KEY_SPACE := by
        intro h3
        exact h (by rw [h3])
      simp [frameIteration, hc, h2]
    · rw [hk]
      simp only [frameIteration, hc, ne_eq, not_true_eq_false, if_false, Option.some.injEq]
      by_cases h27 : toChar fi.waitKey = KEY_ESCAPE
      · simp [h27]
      · simp [h27]
    · rw [hk]
      simp only [frameIteration, hc, ne_eq, not_true_eq_false, if_false, Option.some.injEq]
      by_cases h27 : toChar fi.waitKey = KEY_ESCAPE
      · simp [h27]
      · simp [h27]
  · intro hc
    rw [frameIteration_of_not_created cb st fi hc]
    refine ⟨rfl, rfl, rfl, ?_, rfl⟩
    simp

/-! ## The frame loop: lemmas -/

/-- How an iteration ends. -/
theorem frameIteration_exit (cb : RecognizerCallback) (st : LoopState) (fi : FrameInput) :
    (frameIteration cb st fi).exit =
      if fi.imageCreate ≠ RecognizerErrorStatus.RECOGNIZER_ERROR_STATUS_SUCCESS then
        IterExit.returned (-1)
      else if toChar fi.waitKey ≠ KEY_ESCAPE then IterExit.again else IterExit.left := by
  by_cases hc : fi.imageCreate = RecognizerErrorStatus.RECOGNIZER_ERROR_STATUS_SUCCESS
  · simp [frameIteration, hc]
  · simp [frameIteration, hc]

/-- The loop is left through its condition exactly on frames that lead to the
exit by ESCAPE. -/
theorem frameLoop_left_iff (cb : RecognizerCallback) (frames : List FrameInput) :
    ∀ st, (frameLoop cb st frames).2.2 = LoopEnd.left ↔ leavesByEscape frames := by
  induction frames with
  | nil =>
      intro st
      simp [frameLoop, leavesByEscape]
  | cons fi rest ih =>
      intro st
      have hx := frameIteration_exit cb st fi
      by_cases hc : fi.imageCreate = RecognizerErrorStatus.RECOGNIZER_ERROR_STATUS_SUCCESS
      · by_cases hk : toChar fi.waitKey = KEY_ESCAPE
        · have hx2 : (frameIteration cb st fi).exit = IterExit.left := by
            rw [hx]; simp [hc, hk]
          simp only [frameLoop, hx2]
          constructor
          · intro _
            exact ⟨[], fi, rest, rfl, by simp, hc, hk⟩
          · intro _
            trivial
        · have hx2 : (frameIteration cb st fi).exit = IterExit.again := by
            rw [hx]; simp [hc, hk]
          simp only [frameLoop, hx2]
          rw [ih]
          constructor
          · rintro ⟨pre, f, post, he, hp, hf, hfk⟩
            refine ⟨fi :: pre, f, post, by simp [he], ?_, hf, hfk⟩
            intro g hg
            rcases List.mem_cons.1 hg with h | h
            · subst h
              exact ⟨hc, hk⟩
            · exact hp g h
          · rintro ⟨pre, f, post, he, hp, hf, hfk⟩
            cases pre with
            | nil =>
                simp at he
                exact absurd (he.1 ▸ hfk) hk
            | cons g pre2 =>
                simp at he
                refine ⟨pre2, f, post, he.2, ?_, hf, hfk⟩
                intro x hx3
                exact hp x (List.mem_cons_of_mem _ hx3)
      · have hx2 : (frameIteration cb st fi).exit = IterExit.returned (-1) := by
          rw [hx]; simp [hc]
        simp only [frameLoop, hx2]
        constructor
        · intro h
          cases h
        · rintro ⟨pre, f, post, he, hp, hf, hfk⟩
          cases pre with
          | nil =>
              simp at he
              exact absurd (he.1 ▸ hf) hc
          | cons g pre2 =>
              simp at he
              exact absurd (hp g (by simp)).1 (he.1 ▸ hc)

/-- The only code main returns from inside the loop is -1. -/
theorem frameLoop_returned (cb : RecognizerCallback) (frames : List FrameInput) :
    ∀ st code, (frameLoop cb st frames).2.2 = LoopEnd.returned code → code = -1 := by
  induction frames with
  | nil =>
      intro st code h
      simp [frameLoop] at h
  | cons fi rest ih =>
      intro st code h
      have hx := frameIteration_exit cb st fi
      by_cases hc : fi.imageCreate = RecognizerErrorStatus.RECOGNIZER_ERROR_STATUS_SUCCESS
      · by_cases hk : toChar fi.waitKey = KEY_ESCAPE
        · have hx2 : (frameIteration cb st fi).exit = IterExit.left := by
            rw [hx]; simp [hc, hk]
          simp [frameLoop, hx2] at h
        · have hx2 : (frameIteration cb st fi).exit = IterExit.again := by
            rw [hx]; simp [hc, hk]
          simp only [frameLoop, hx2] at h
          exact ih _ code h
      · have hx2 : (frameIteration cb st fi).exit = IterExit.returned (-1) := by
          rw [hx]; simp [hc]
        simp only [frameLoop, hx2] at h
        cases h
        rfl

/-! ## C3: the exit code of main -/

/-- The outcome of main when the three checked setup steps succeed. -/
theorem main_outcome_of_passes (s : SetupInput) (frames : List FrameInput) (h : setupPasses s) :
    (main s frames).outcome =
      match (frameLoop buildRecognizerCallback LoopState.initial frames).2.2 with
      | LoopEnd.awaitingFrame => Outcome.awaitingFrame
      | LoopEnd.left => Outcome.returned 0
      | LoopEnd.returned code => Outcome.returned code := by
  obtain ⟨h1, h2, h3⟩ := h
  simp only [main, h1, h2, h3, LoopState.initial, ne_eq, not_true_eq_false, if_false]
  cases (frameLoop buildRecognizerCallback
    { debarreledImage := ImagePtr.null, world := World.initial } frames).2.2 <;> rfl

/-- The run of main when one of the three checked setup steps fails: it
returns -1 and no frame is captured. -/
theorem main_of_not_passes (s : SetupInput) (frames : List FrameInput) (h : ¬ setupPasses s) :
    (main s frames).outcome = Outcome.returned (-1) ∧
    framesProcessed (main s frames).trace = 0 := by
  unfold setupPasses at h
  unfold framesProcessed
  by_cases h1 : s.loadFileToBuffer = RecognizerErrorStatus.RECOGNIZER_ERROR_STATUS_SUCCESS
  · by_cases h2 : s.recognizerCreate = RecognizerErrorStatus.RECOGNIZER_ERROR_STATUS_SUCCESS
    · have h3 : s.cameraIsOpened = false := by
        cases hcam : s.cameraIsOpened
        · rfl
        · exact absurd ⟨h1, h2, hcam⟩ h
      have hm : main s frames =
          { trace := [Call.recognizerLoadFileToBuffer "ocr_model.zzip" s.loadFileToBuffer]
              ++ configureCalls s
              ++ [Call.recognizerCreate s.recognizerCreate,
                  Call.videoCapture 0 s.cameraIsOpened,
                  Call.cout "Could not open camera video stream" none],
            world := World.initial, outcome := Outcome.returned (-1) } := by
        simp [main, h1, h2, h3]
      rw [hm]
      exact ⟨rfl, rfl⟩
    · have hm : main s frames =
          { trace := [Call.recognizerLoadFileToBuffer "ocr_model.zzip" s.loadFileToBuffer]
              ++ configureCalls s
              ++ [Call.recognizerCreate s.recognizerCreate,
                  Call.cout "Error creating recognizer: " (some s.recognizerCreate)],
            world := World.initial, outcome := Outcome.returned (-1) } := by
        simp [main, h1, h2]
      rw [hm]
      exact ⟨rfl, rfl⟩
  · have hm : main s frames =
        { trace := [Call.recognizerLoadFileToBuffer "ocr_model.zzip" s.loadFileToBuffer,
                    Call.cout "Could not load file ocr_model.zzip" none],
          world := World.initial, outcome := Outcome.returned (-1) } := by
      simp [main, h1]
    rw [hm]
    exact ⟨rfl, rfl⟩

/-- The run returns 0 exactly when the three checked setup steps succeed and the
loop is left through its condition. -/
theorem main_zero_iff (s : SetupInput) (frames : List FrameInput) :
    (main s frames).outcome = Outcome.returned 0 ↔ setupPasses s ∧ leavesByEscape frames := by
  by_cases hp : setupPasses s
  · rw [main_outcome_of_passes s frames hp, ← frameLoop_left_iff buildRecognizerCallback frames
      LoopState.initial]
    constructor
    · intro h
      refine ⟨hp, ?_⟩
      split at h
      · cases h
      · assumption
      · rename_i code hcode
        have := frameLoop_returned _ _ _ _ hcode
        subst this
        cases h
    · rintro ⟨_, h⟩
      rw [h]
  · rw [(main_of_not_passes s frames hp).1]
    constructor
    · intro h
      cases h
    · rintro ⟨h, _⟩
      exact absurd h hp

/-- C3: main returns 0 if and only if the OCR model file loaded, the recognizer
was created, the camera opened, image creation succeeded on every processed
frame and the loop ended because the key read was ESCAPE (27); when loading the
model file, creating the recognizer or opening the camera fails it returns -1
without processing any frame; these are the only setup steps whose failure ends
the program: when they succeed main reaches the frame loop whatever the other
setup calls returned, and the outcome of a run never depends on what those
returned; the only codes main returns are 0 and -1. -/
theorem C3_exit_code (s : SetupInput) (frames : List FrameInput) :
    ((main s frames).outcome = Outcome.returned 0 ↔ setupPasses s ∧ leavesByEscape frames) ∧
    (¬ setupPasses s →
      (main s frames).outcome = Outcome.returned (-1) ∧
      framesProcessed (main s frames).trace = 0) ∧
    (setupPasses s → (main s []).outcome = Outcome.awaitingFrame) ∧
    (∀ s2 : SetupInput, s2.loadFileToBuffer = s.loadFileToBuffer →
      s2.recognizerCreate = s.recognizerCreate → s2.cameraIsOpened = s.cameraIsOpened →
      (main s2 frames).outcome = (main s frames).outcome) ∧
    (∀ code, (main s frames).outcome = Outcome.returned code → code = 0 ∨ code = -1) := by
  refine ⟨main_zero_iff s frames, main_of_not_passes s frames, ?_, ?_, ?_⟩
  · intro hp
    rw [main_outcome_of_passes s [] hp]
    rfl
  · intro s2 e1 e2 e3
    by_cases hp : setupPasses s
    · have hp2 : setupPasses s2 := by
        unfold setupPasses at hp ⊢
        rw [e1, e2, e3]
        exact hp
      rw [main_outcome_of_passes s frames hp, main_outcome_of_passes s2 frames hp2]
    · have hp2 : ¬ setupPasses s2 := by
        unfold setupPasses at hp ⊢
        rw [e1, e2, e3]
        exact hp
      rw [(main_of_not_passes s frames hp).1, (main_of_not_passes s2 frames hp2).1]
  · intro code h
    by_cases hp : setupPasses s
    · rw [main_outcome_of_passes s frames hp] at h
      split at h
      · cases h
      · cases h
        exact Or.inl rfl
      · rename_i c hc
        have := frameLoop_returned _ _ _ _ hc
        cases h
        exact Or.inr this
    · rw [(main_of_not_passes s frames hp).1] at h
      cases h
      exact Or.inr rfl

/-! ## C2: creation calls and release calls -/

/-- No result-phase call creates a handle. -/
theorem creates_phase (k : HandleKind) (c : Call) (h : isResultPhaseCall c = true) :
    (creates c == some k) = false := by
  cases c <;> first | rfl | cases h

/-- No result-phase call releases a handle. -/
theorem releases_phase (k : HandleKind) (c : Call) (h : isResultPhaseCall c = true) :
    (releases c == some k) = false := by
  cases c <;> first | rfl | cases h

/-- No result-phase call captures a frame. -/
theorem cameraRead_phase (c : Call) (h : isResultPhaseCall c = true) :
    isCameraRead c = false := by
  cases c <;> first | rfl | cases h

/-- What one iteration with a successful image creation adds to the counts: one
captured frame, one creation call of each per-frame kind, one release call of
the source image and of the result list, and no release of the dewarped image. -/
theorem frameIteration_counts (cb : RecognizerCallback) (st : LoopState) (fi : FrameInput)
    (hc : fi.imageCreate = RecognizerErrorStatus.RECOGNIZER_ERROR_STATUS_SUCCESS) :
    framesProcessed (frameIteration cb st fi).calls = 1 ∧
    ∀ k, creationCalls k (frameIteration cb st fi).calls = createdPerFrame k ∧
      releaseCalls k (frameIteration cb st fi).calls = releasedPerFrame k := by
  rw [frameIteration_calls_of_created cb st fi hc]
  refine ⟨?_, fun k => ⟨?_, ?_⟩⟩
  · unfold framesProcessed
    simp only [List.countP_append, countP_examineResults isCameraRead cameraRead_phase,
      countP_notFound isCameraRead cameraRead_phase]
    split_ifs <;> rfl
  · unfold creationCalls
    simp only [List.countP_append, countP_examineResults _ (creates_phase k),
      countP_notFound _ (creates_phase k)]
    split_ifs <;> cases k <;> rfl
  · unfold releaseCalls
    simp only [List.countP_append, countP_examineResults _ (releases_phase k),
      countP_notFound _ (releases_phase k)]
    split_ifs <;> cases k <;> rfl

/-- In a loop left through its condition every iteration created an image, so
the counts of the loop are those of one iteration times the number of frames,
and at least one frame was processed. -/
theorem frameLoop_counts (cb : RecognizerCallback) (frames : List FrameInput) :
    ∀ st, (frameLoop cb st frames).2.2 = LoopEnd.left →
      1 ≤ framesProcessed (frameLoop cb st frames).1 ∧
      ∀ k, creationCalls k (frameLoop cb st frames).1
            = createdPerFrame k * framesProcessed (frameLoop cb st frames).1 ∧
          releaseCalls k (frameLoop cb st frames).1
            = releasedPerFrame k * framesProcessed (frameLoop cb st frames).1 := by
  induction frames with
  | nil =>
      intro st h
      simp [frameLoop] at h
  | cons fi rest ih =>
      intro st h
      have hx := frameIteration_exit cb st fi
      by_cases hc : fi.imageCreate = RecognizerErrorStatus.RECOGNIZER_ERROR_STATUS_SUCCESS
      · obtain ⟨hn, hk⟩ := frameIteration_counts cb st fi hc
        by_cases hesc : toChar fi.waitKey = KEY_ESCAPE
        · have hx2 : (frameIteration cb st fi).exit = IterExit.left := by
            rw [hx]; simp [hc, hesc]
          simp only [frameLoop, hx2]
          rw [hn]
          refine ⟨le_refl 1, fun k => ?_⟩
          rw [(hk k).1, (hk k).2]
          simp
        · have hx2 : (frameIteration cb st fi).exit = IterExit.again := by
            rw [hx]; simp [hc, hesc]
          simp only [frameLoop, hx2] at h ⊢
          obtain ⟨h1, h2⟩ := ih _ h
          unfold framesProcessed creationCalls releaseCalls at *
          simp only [List.countP_append]
          refine ⟨by omega, fun k => ?_⟩
          rw [(hk k).1, (hk k).2, (h2 k).1, (h2 k).2, hn]
          constructor <;> ring
      · have hx2 : (frameIteration cb st fi).exit = IterExit.returned (-1) := by
          rw [hx]; simp [hc]
        simp only [frameLoop, hx2] at h
        cases h

/-- The trace of a run that leaves the loop through its condition: the setup
calls, the calls of the loop, the cleanup calls. -/
theorem main_trace_of_left (s : SetupInput) (frames : List FrameInput) (hp : setupPasses s)
    (hl : (frameLoop buildRecognizerCallback LoopState.initial frames).2.2 = LoopEnd.left) :
    (main s frames).trace =
      [Call.recognizerLoadFileToBuffer "ocr_model.zzip" s.loadFileToBuffer]
        ++ configureCalls s
        ++ [Call.recognizerCreate s.recognizerCreate, Call.videoCapture 0 s.cameraIsOpened]
        ++ windowCalls
        ++ (frameLoop buildRecognizerCallback LoopState.initial frames).1 ++ cleanupCalls := by
  obtain ⟨h1, h2, h3⟩ := hp
  unfold LoopState.initial at hl ⊢
  simp only [main, h1, h2, h3, ne_eq, not_true_eq_false, if_false, hl]
  rfl

/-- C1 at concrete frames: a frame with one valid MRTD result sets foundResult
to 1, a frame with an empty result list leaves it 0 and calls no getter. -/
theorem C1_found_result_witness :
    (frameIteration buildRecognizerCallback LoopState.initial (sampleInput 32)).foundResult
      = some 1 ∧
    (frameIteration buildRecognizerCallback LoopState.initial (emptyInput 32)).foundResult
      = some 0 ∧
    Call.recognizerResultGetMRTD MRTDGetter.Sex ∉
      (frameIteration buildRecognizerCallback LoopState.initial (emptyInput 32)).calls :=
  ⟨((C1_found_result buildRecognizerCallback LoopState.initial (sampleInput 32)).2.2.2 rfl).2,
   ((C1_found_result buildRecognizerCallback LoopState.initial (emptyInput 32)).2.2.2 rfl).2,
   ((C1_found_result buildRecognizerCallback LoopState.initial (emptyInput 32)).2.2.1
      (fun h => absurd
        (((C1_found_result buildRecognizerCallback LoopState.initial (emptyInput 32)).2.2.2
          rfl).1.1 h) (by decide))).1 MRTDGetter.Sex⟩

/-- C3 at concrete runs: two frames with ESCAPE on the second return 0, and a
run whose recognizer creation fails returns -1 before any frame. -/
theorem C3_exit_code_witness :
    (main sampleSetup [sampleInput 32, sampleInput 27]).outcome = Outcome.returned 0 ∧
    (main { sampleSetup with recognizerCreate := RecognizerErrorStatus.failure 2 }
      [sampleInput 27]).outcome = Outcome.returned (-1) :=
  ⟨(C3_exit_code sampleSetup [sampleInput 32, sampleInput 27]).1.2
      ⟨by decide, [sampleInput 32], sampleInput 27, [], rfl, by decide, rfl, by decide⟩,
   ((C3_exit_code { sampleSetup with recognizerCreate := RecognizerErrorStatus.failure 2 }
      [sampleInput 27]).2.1 (by decide)).1⟩

/-- C5 at a concrete frame: the three-channel sample frame is passed as BGR with
its cols, rows and step. -/
theorem C5_raw_layout_witness :
    Call.recognizerImageCreateFromRawImage (MatData.external ⟨1⟩) 1279 723 3837
        RawImageType.RAW_IMAGE_TYPE_BGR RecognizerErrorStatus.RECOGNIZER_ERROR_STATUS_SUCCESS
      ∈ (frameIteration buildRecognizerCallback LoopState.initial (sampleInput 32)).calls ∧
    (RawImageType.RAW_IMAGE_TYPE_BGR = RawImageType.RAW_IMAGE_TYPE_BGR ↔
      (sampleInput 32).frame.channels = 3) :=
  ⟨by decide,
   ((C5_raw_layout buildRecognizerCallback LoopState.initial (sampleInput 32)).2
      (MatData.external ⟨1⟩) 1279 723 3837 RawImageType.RAW_IMAGE_TYPE_BGR
      RecognizerErrorStatus.RECOGNIZER_ERROR_STATUS_SUCCESS (by decide)).2.2.2.2.2.1⟩

/-- C9 at concrete frames: SPACE resets and clears hasDewarped although the
engine had shown a dewarped image; ESCAPE leaves the loop without reset. -/
theorem C9_reset_and_exit_witness :
    Call.recognizerReset ∈
      (frameIteration buildRecognizerCallback LoopState.initial (sampleInput 32)).calls ∧
    (frameIteration buildRecognizerCallback LoopState.initial
      (sampleInput 32)).state.world.hasDewarped = 0 ∧
    (frameIteration buildRecognizerCallback LoopState.initial (sampleInput 27)).exit
      = IterExit.left ∧
    (frameIteration buildRecognizerCallback LoopState.initial
      (sampleInput 27)).state.world.hasDewarped = 1 :=
  ⟨((C9_reset_and_exit buildRecognizerCallback LoopState.initial (sampleInput 32)).1
      rfl).2.2.2.1.2 rfl,
   ((C9_reset_and_exit buildRecognizerCallback LoopState.initial (sampleInput 32)).1
      rfl).2.2.2.2.2.1 rfl,
   ((C9_reset_and_exit buildRecognizerCallback LoopState.initial (sampleInput 27)).1
      rfl).2.2.2.2.2.2.2.2.2 rfl,
   (((C9_reset_and_exit buildRecognizerCallback LoopState.initial (sampleInput 27)).1
      rfl).2.2.2.2.2.2.1 (by decide)).trans rfl⟩

/-! ## C12 and C13: dateString -/

/-- Small values are not altered by 32-bit arithmetic. -/
theorem wrapInt32_of_small (x : Int) (h0 : -2147483648 ≤ x) (h1 : x ≤ 2147483647) :
    wrapInt32 x = x := by
  unfold wrapInt32
  omega

/-- The full year of a parsed two-character year: 1900 or 2000 plus the value. -/
theorem fullYear_cases (future nowYear yy : Int) (h0 : -9 ≤ yy) (h1 : yy ≤ 99) :
    fullYear future nowYear yy =
      if future ≠ 0 then (if yy > 80 then 1900 + yy else 2000 + yy)
      else (if yy + 2000 > nowYear then 1900 + yy else 2000 + yy) := by
  unfold fullYear
  rw [wrapInt32_of_small (1900 + yy) (by omega) (by omega),
    wrapInt32_of_small (2000 + yy) (by omega) (by omega),
    wrapInt32_of_small (yy + 2000) (by omega) (by omega)]

/-- The decimal text of a value a `%2d` conversion can give has at most two
characters. -/
theorem toString_length_two (x : Int) (h0 : -9 ≤ x) (h1 : x ≤ 99) : (toString x).length ≤ 2 := by
  interval_cases x <;> decide

/-- The decimal text of a year from 1891 to 2099 has four characters. -/
theorem toString_length_year (x : Int) (h0 : 1891 ≤ x) (h1 : x ≤ 2099) :
    (toString x).length = 4 := by
  interval_cases x <;> rfl

/-- A decimal digit has a value from 0 to 9. -/
theorem digitValue_range (c : Char) (h : isdigit c = true) :
    0 ≤ digitValue c ∧ digitValue c ≤ 9 := by
  unfold isdigit at h
  unfold digitValue
  simp only [decide_eq_true_eq] at h
  omega

/-- What a `%2d` conversion reads lies between -9 and 99. -/
theorem scan2d_range (s : List Char) (y : Int) (r : List Char) (h : scan2d s = some (y, r)) :
    -9 ≤ y ∧ y ≤ 99 := by
  unfold scan2d at h
  split at h
  · cases h
  · rename_i c rest _
    split_ifs at h with h45 h43 hd
    · split at h
      · cases h
      · rename_i d rest2 _
        split_ifs at h with hd2
        · simp only [Option.some.injEq, Prod.mk.injEq] at h
          have := digitValue_range d hd2
          omega
    · split at h
      · cases h
      · rename_i d rest2 _
        split_ifs at h with hd2
        · simp only [Option.some.injEq, Prod.mk.injEq] at h
          have := digitValue_range d hd2
          omega
    · have hc := digitValue_range c hd
      split at h
      · simp only [Option.some.injEq, Prod.mk.injEq] at h
        omega
      · rename_i d rest2 _
        split_ifs at h with hd2
        · simp only [Option.some.injEq, Prod.mk.injEq] at h
          have := digitValue_range d hd2
          omega
        · simp only [Option.some.injEq, Prod.mk.injEq] at h
          omega

/-- On a text all three conversions succeed on, the three locals get the values
read. -/
theorem sscanfDate_of_parsesTo (s : List Char) (yy month day : Int) (u : Int × Int × Int)
    (h : parsesTo s yy month day) : sscanfDate s u = (yy, month, day) := by
  obtain ⟨r1, r2, r3, h1, h2, h3⟩ := h
  simp [sscanfDate, h1, h2, h3]

/-- The full year of a parsed two-character year lies in 1891..2099. -/
theorem fullYear_range (future nowYear yy : Int) (h0 : -9 ≤ yy) (h1 : yy ≤ 99) :
    1891 ≤ fullYear future nowYear yy ∧ fullYear future nowYear yy ≤ 2099 := by
  rw [fullYear_cases future nowYear yy h0 h1]
  split_ifs <;> omega

/-- The text formatted from parsed values has at most 11 characters. -/
theorem formatDate_length (future nowYear yy month day : Int) (h0 : -9 ≤ yy) (h1 : yy ≤ 99)
    (hm0 : -9 ≤ month) (hm1 : month ≤ 99) (hd0 : -9 ≤ day) (hd1 : day ≤ 99) :
    (formatDate (fullYear future nowYear yy) month day).length ≤ 11 := by
  obtain ⟨hy0, hy1⟩ := fullYear_range future nowYear yy h0 h1
  have e1 := toString_length_year _ hy0 hy1
  have e2 := toString_length_two month hm0 hm1
  have e3 := toString_length_two day hd0 hd1
  have e4 : (".").length = 1 := rfl
  unfold formatDate
  simp only [String.length_append, e1, e4]
  omega

/-- On a date text all three conversions succeed on, dateString returns the
text formatted from the values read. -/
theorem dateString_of_parsesTo (mrzdate : String) (future tm_year : Int) (u : Int × Int × Int)
    (yy month day : Int) (h : parsesTo mrzdate.toList yy month day) :
    dateString mrzdate future tm_year u
      = some (formatDate (fullYear future (wrapInt32 (1900 + tm_year)) yy) month day) := by
  have hv := sscanfDate_of_parsesTo mrzdate.toList yy month day u h
  obtain ⟨r1, r2, r3, h1, h2, h3⟩ := h
  obtain ⟨a0, a1⟩ := scan2d_range _ _ _ h1
  obtain ⟨b0, b1⟩ := scan2d_range _ _ _ h2
  obtain ⟨c0, c1⟩ := scan2d_range _ _ _ h3
  have hl := formatDate_length future (wrapInt32 (1900 + tm_year)) yy month day a0 a1 b0 b1 c0 c1
  have ht : dateText mrzdate future tm_year u
      = formatDate (fullYear future (wrapInt32 (1900 + tm_year)) yy) month day := by
    simp only [dateText, hv]
  unfold dateString
  rw [ht, if_pos (by omega)]

/-- C12: dateString gets the full year from the last two digits: for every
two-digit year yy in 0..99 the year is congruent to yy modulo 100; with the
future flag set it is 1900 + yy when yy > 80 and 2000 + yy otherwise, so it lies
in 1981..2080, with 80 giving 2080 and 81 giving 1981; with the future flag
clear and the current year nowYear in 2000..2099 it is the unique year in the
window nowYear - 99 .. nowYear with these last two digits, so it never exceeds
the current year; and this year is the one dateString prints for a date text
that parses to yy, month and day. -/
theorem C12_full_year (future nowYear yy : Int) (h0 : 0 ≤ yy) (h1 : yy ≤ 99) :
    fullYear future nowYear yy % 100 = yy ∧
    (future ≠ 0 →
      fullYear future nowYear yy = (if yy > 80 then 1900 + yy else 2000 + yy) ∧
      1981 ≤ fullYear future nowYear yy ∧ fullYear future nowYear yy ≤ 2080 ∧
      (yy = 80 → fullYear future nowYear yy = 2080) ∧
      (yy = 81 → fullYear future nowYear yy = 1981)) ∧
    (future = 0 → 2000 ≤ nowYear → nowYear ≤ 2099 →
      nowYear - 99 ≤ fullYear future nowYear yy ∧ fullYear future nowYear yy ≤ nowYear ∧
      ∀ y : Int, nowYear - 99 ≤ y → y ≤ nowYear → y % 100 = yy →
        y = fullYear future nowYear yy) ∧
    (∀ (mrzdate : String) (tm_year : Int) (u : Int × Int × Int) (month day : Int),
      parsesTo mrzdate.toList yy month day →
      dateString mrzdate future tm_year u
        = some (toString (fullYear future (wrapInt32 (1900 + tm_year)) yy) ++ "."
            ++ toString month ++ "." ++ toString day ++ ".")) := by
  have hc := fullYear_cases future nowYear yy (by omega) h1
  refine ⟨?_, ?_, ?_, ?_⟩
  · rw [hc]
    split_ifs <;> omega
  · intro hf
    rw [hc, if_pos hf]
    split_ifs <;> omega
  · intro hf hn0 hn1
    rw [hc, if_neg (by simpa using hf)]
    split_ifs <;> refine ⟨by omega, by omega, ?_⟩ <;> intro y hy0 hy1 hy <;> omega
  · intro mrzdate tm_year u month day hp
    exact dateString_of_parsesTo mrzdate future tm_year u yy month day hp

/-- C12 at concrete dates: a birth date 85-12-31 read in 2026 is printed with
1985, an expiry date 30-01-15 with 2030. -/
theorem C12_full_year_witness :
    fullYear 0 2026 85 = 1985 ∧ fullYear 1 2026 30 = 2030 ∧
    dateString "851231" 0 126 (0, 0, 0) = some "1985.12.31." :=
  ⟨((C12_full_year 0 2026 85 (by decide) (by decide)).2.2.1 rfl (by decide) (by decide)).2.2
      1985 (by decide) (by decide) (by decide) |>.symm,
   ((C12_full_year 1 2026 30 (by decide) (by decide)).2.1 (by decide)).1,
   by decide⟩

/-- C13: dateString never overruns its 12-byte static buffer: each value the
format "%2d%2d%2d" reads lies in -9..99; for every such triple (yy, month, day),
for either value of the future flag and for every current year, the year lies in
1891..2099, its text has exactly four characters, and the text formatted by
"%d.%d.%d." has at most 11 characters; so on every date text the three
conversions succeed on, dateString returns the formatted text, which with its
terminator fits the 12 bytes. -/
theorem C13_buffer_fits :
    (∀ (s : List Char) (y : Int) (r : List Char), scan2d s = some (y, r) → -9 ≤ y ∧ y ≤ 99) ∧
    (∀ future nowYear yy month day : Int,
      -9 ≤ yy → yy ≤ 99 → -9 ≤ month → month ≤ 99 → -9 ≤ day → day ≤ 99 →
      1891 ≤ fullYear future nowYear yy ∧ fullYear future nowYear yy ≤ 2099 ∧
      (toString (fullYear future nowYear yy)).length = 4 ∧
      (formatDate (fullYear future nowYear yy) month day).length ≤ 11) ∧
    (∀ (mrzdate : String) (future tm_year : Int) (u : Int × Int × Int) (yy month day : Int),
      parsesTo mrzdate.toList yy month day →
      ∃ text, dateString mrzdate future tm_year u = some text ∧ text.length ≤ 11 ∧
        text.length + 1 ≤ 12) := by
  refine ⟨scan2d_range, ?_, ?_⟩
  · intro future nowYear yy month day h0 h1 hm0 hm1 hd0 hd1
    obtain ⟨hy0, hy1⟩ := fullYear_range future nowYear yy h0 h1
    exact ⟨hy0, hy1, toString_length_year _ hy0 hy1,
      formatDate_length future nowYear yy month day h0 h1 hm0 hm1 hd0 hd1⟩
  · intro mrzdate future tm_year u yy month day hp
    refine ⟨_, dateString_of_parsesTo mrzdate future tm_year u yy month day hp, ?_⟩
    obtain ⟨r1, r2, r3, h1, h2, h3⟩ := hp
    obtain ⟨a0, a1⟩ := scan2d_range _ _ _ h1
    obtain ⟨b0, b1⟩ := scan2d_range _ _ _ h2
    obtain ⟨c0, c1⟩ := scan2d_range _ _ _ h3
    have hl := formatDate_length future (wrapInt32 (1900 + tm_year)) yy month day
      a0 a1 b0 b1 c0 c1
    omega

/-- C13 at concrete values: the longest text, for the triple (-9, -9, -9), has
11 characters. -/
theorem C13_buffer_fits_witness :
    (formatDate (fullYear 0 2026 (-9)) (-9) (-9)).length ≤ 11 ∧
    formatDate (fullYear 0 2026 (-9)) (-9) (-9) = "1991.-9.-9." :=
  ⟨(C13_buffer_fits.2.1 0 2026 (-9) (-9) (-9) (by decide) (by decide) (by decide) (by decide)
      (by decide) (by decide)).2.2.2,
   by decide⟩

/-! ## C11: what the debarreled window shows -/

/-- C11 at the failing input: on a first frame during which the engine delivers
a dewarped image (hasDewarped is 1 when the windows are drawn) while the result
list is empty, main shows the debarreled frame in the "Display debarreled
window" and never the dewarped image, although the comment on line 420 says
"if we have dewarped image show it, if not show debarreled image instead". -/
theorem C11_failing_input :
    ((dewarpedNotFound.engineEvents.foldl (dispatch buildRecognizerCallback)
      LoopState.initial.world).hasDewarped = 1) ∧
    (frameIteration buildRecognizerCallback LoopState.initial dewarpedNotFound).foundResult
      = some 0 ∧
    Call.imshow "Display debarreled window" MatVar.debarreledFrame
        (createImageFromRecognizerImage dewarpedNotFound.debarreledView)
      ∈ (frameIteration buildRecognizerCallback LoopState.initial dewarpedNotFound).calls ∧
    (frameIteration buildRecognizerCallback LoopState.initial dewarpedNotFound).calls.countP
      showsDewarped = 0 := by
  decide

/-- What lines 421-425 do in every iteration: when image creation succeeds the
"Display debarreled window" is drawn once; the test is
`foundResult && hasDewarped`, so the dewarped image is shown only when both are
set, and a dewarped image that has been received is not shown while
foundResult is 0.  When image creation fails no window is drawn. -/
theorem frameIteration_debarreled_window (cb : RecognizerCallback) (st : LoopState) (fi : FrameInput) :
    (fi.imageCreate = RecognizerErrorStatus.RECOGNIZER_ERROR_STATUS_SUCCESS →
      (frameIteration cb st fi).calls.countP isDebarreledWindowShow = 1 ∧
      (((frameIteration cb st fi).foundResult = some 1 ∧
          (fi.engineEvents.foldl (dispatch cb) st.world).hasDewarped ≠ 0) →
        Call.imshow "Display debarreled window" MatVar.dewarpedFrame
            (fi.engineEvents.foldl (dispatch cb) st.world).dewarpedFrame
          ∈ (frameIteration cb st fi).calls ∧
        (frameIteration cb st fi).calls.countP showsDewarped = 1) ∧
      (¬ ((frameIteration cb st fi).foundResult = some 1 ∧
          (fi.engineEvents.foldl (dispatch cb) st.world).hasDewarped ≠ 0) →
        Call.imshow "Display debarreled window" MatVar.debarreledFrame
            (createImageFromRecognizerImage fi.debarreledView)
          ∈ (frameIteration cb st fi).calls ∧
        (frameIteration cb st fi).calls.countP showsDewarped = 0)) ∧
    (fi.imageCreate ≠ RecognizerErrorStatus.RECOGNIZER_ERROR_STATUS_SUCCESS →
      (frameIteration cb st fi).calls.countP isDebarreledWindowShow = 0) := by
  constructor
  · intro hc
    have hf : (frameIteration cb st fi).foundResult = some (examineResults fi).1 := by
      simp [frameIteration, hc]
    have h01 : (examineResults fi).1 = 1 ∨ (examineResults fi).1 = 0 := by
      rw [examineResults_fst]
      split_ifs
      · exact Or.inl rfl
      · exact Or.inr rfl
    have hph1 : ∀ c, isResultPhaseCall c = true → isDebarreledWindowShow c = false := by
      intro c h
      cases c <;> first | rfl | cases h
    have hph2 : ∀ c, isResultPhaseCall c = true → showsDewarped c = false := by
      intro c h
      cases c <;> first | rfl | cases h
    rw [hf, frameIteration_calls_of_created cb st fi hc]
    simp only [List.countP_append, countP_examineResults _ hph1, countP_notFound _ hph1,
      countP_examineResults _ hph2, countP_notFound _ hph2, Option.some.injEq]
    refine ⟨?_, ?_, ?_⟩
    · split_ifs <;> rfl
    · rintro ⟨h1, hd⟩
      have hne : (examineResults fi).1 ≠ 0 := by
        rw [h1]; decide
      have hcond : (examineResults fi).1 ≠ 0 ∧
          (fi.engineEvents.foldl (dispatch cb) st.world).hasDewarped ≠ 0 := ⟨hne, hd⟩
      rw [if_pos hcond]
      constructor
      · simp
      · split_ifs <;> rfl
    · intro hn
      have hcond : ¬ ((examineResults fi).1 ≠ 0 ∧
          (fi.engineEvents.foldl (dispatch cb) st.world).hasDewarped ≠ 0) := by
        rintro ⟨hne, hd⟩
        rcases h01 with h | h
        · exact hn ⟨h, hd⟩
        · exact hne h
      rw [if_neg hcond]
      constructor
      · simp
      · split_ifs <;> rfl
  · intro hc
    rw [frameIteration_of_not_created cb st fi hc]
    rfl

/-! ## C14: the statuses main does not look at -/

/-- C14 as amended: in every iteration of the frame loop in which image
creation succeeds, recognizerRecognizeFromImage is called exactly once, on
debarreledImage as the dewarp call left it and with imageIsVideoFrame = 1,
whatever status recognizerBarrelDewarperDewarp returned, and the result count is
read exactly once whatever status recognizerRecognizeFromImage returned; neither
status affects the control flow: with other statuses the iteration makes the
same calls (apart from the statuses recorded), ends the same way and leaves the
same state; the recognition runs on the pointer the dewarp call stored if it
stored one, whatever its status, and on what debarreledImage held before that
frame, which is NULL on the first frame, if the call stored nothing. -/
theorem C14_statuses_ignored (cb : RecognizerCallback) (st : LoopState) (fi : FrameInput)
    (hc : fi.imageCreate = RecognizerErrorStatus.RECOGNIZER_ERROR_STATUS_SUCCESS) :
    (frameIteration cb st fi).calls.countP isRecognizeCall = 1 ∧
    (∀ p v r, Call.recognizerRecognizeFromImage p v r ∈ (frameIteration cb st fi).calls →
      p = (frameIteration cb st fi).state.debarreledImage ∧ v = 1 ∧ r = fi.recognize) ∧
    Call.recognizerRecognizeFromImage (frameIteration cb st fi).state.debarreledImage 1
      fi.recognize ∈ (frameIteration cb st fi).calls ∧
    (frameIteration cb st fi).calls.countP isNumOfResultsCall = 1 ∧
    Call.recognizerResultListGetNumOfResults fi.numResults ∈ (frameIteration cb st fi).calls ∧
    (∀ sd sr : RecognizerErrorStatus,
      (frameIteration cb st (withStatuses fi sd sr)).calls.map eraseStatus
        = (frameIteration cb st fi).calls.map eraseStatus ∧
      (frameIteration cb st (withStatuses fi sd sr)).exit = (frameIteration cb st fi).exit ∧
      (frameIteration cb st (withStatuses fi sd sr)).foundResult
        = (frameIteration cb st fi).foundResult ∧
      (frameIteration cb st (withStatuses fi sd sr)).keystroke
        = (frameIteration cb st fi).keystroke ∧
      (frameIteration cb st (withStatuses fi sd sr)).state = (frameIteration cb st fi).state) ∧
    (fi.dewarp.stored = none →
      (frameIteration cb st fi).state.debarreledImage = st.debarreledImage ∧
      Call.recognizerRecognizeFromImage st.debarreledImage 1 fi.recognize
        ∈ (frameIteration cb st fi).calls) ∧
    (fi.dewarp.stored = none → st = LoopState.initial →
      Call.recognizerRecognizeFromImage ImagePtr.null 1 fi.recognize
        ∈ (frameIteration cb st fi).calls) ∧
    (∀ p, fi.dewarp.stored = some p →
      (frameIteration cb st fi).state.debarreledImage = p ∧
      Call.recognizerRecognizeFromImage p 1 fi.recognize
        ∈ (frameIteration cb st fi).calls) := by
  have hst : (frameIteration cb st fi).state.debarreledImage =
      (match fi.dewarp.stored with
       | some p => p
       | none => st.debarreledImage) := by
    simp [frameIteration, hc]
  have hcalls := frameIteration_calls_of_created cb st fi hc
  have hp1 : ∀ c, isResultPhaseCall c = true → isRecognizeCall c = false := by
    intro c h
    cases c <;> first | rfl | cases h
  have hp2 : ∀ c, isResultPhaseCall c = true → isNumOfResultsCall c = false := by
    intro c h
    cases c <;> first | rfl | cases h
  have hmem : Call.recognizerRecognizeFromImage (frameIteration cb st fi).state.debarreledImage 1
      fi.recognize ∈ (frameIteration cb st fi).calls := by
    rw [hst, hcalls]
    simp
  refine ⟨?_, ?_, hmem, ?_, ?_, ?_, ?_, ?_, ?_⟩
  · rw [hcalls]
    simp only [List.countP_append, countP_examineResults _ hp1, countP_notFound _ hp1]
    split_ifs <;> rfl
  · intro p v r hm
    rw [hst]
    rw [hcalls] at hm
    simp only [List.mem_append] at hm
    rcases hm with (((hm | hm) | hm) | hm) | hm
    · simp at hm
      exact hm
    · cases examineResults_phase fi _ hm
    · cases notFound_phase _ _ hm
    · split_ifs at hm <;> simp at hm
    · split_ifs at hm <;> simp at hm
  · rw [hcalls]
    simp only [List.countP_append, countP_examineResults _ hp2, countP_notFound _ hp2]
    split_ifs <;> rfl
  · rw [hcalls]
    simp
  · intro sd sr
    have hc2 : (withStatuses fi sd sr).imageCreate
        = RecognizerErrorStatus.RECOGNIZER_ERROR_STATUS_SUCCESS := hc
    have he : examineResults (withStatuses fi sd sr) = examineResults fi := rfl
    refine ⟨?_, ?_, ?_, ?_, ?_⟩
    · rw [hcalls, frameIteration_calls_of_created cb st _ hc2, he]
      simp only [List.map_append, List.map_cons, List.map_nil]
      rfl
    · rw [frameIteration_exit, frameIteration_exit]
      rfl
    · simp [frameIteration, hc, hc2, he]
    · simp only [frameIteration, hc, hc2, ne_eq, not_true_eq_false, if_false]
      rfl
    · simp only [frameIteration, hc, hc2, ne_eq, not_true_eq_false, if_false]
      rfl
  · intro hn
    have h2 : (frameIteration cb st fi).state.debarreledImage = st.debarreledImage := by
      rw [hst, hn]
    refine ⟨h2, ?_⟩
    rw [← h2]
    exact hmem
  · intro hn hi
    have h2 : (frameIteration cb st fi).state.debarreledImage = ImagePtr.null := by
      rw [hst, hn, hi]
      rfl
    rw [← h2]
    exact hmem
  · intro p hp
    have h2 : (frameIteration cb st fi).state.debarreledImage = p := by
      rw [hst, hp]
    refine ⟨h2, ?_⟩
    rw [← h2]
    exact hmem

/-- C14 as stated fails on a first frame whose dewarp call returns a failure
status and yet stores a handle in debarreledImage: the one recognition call of
the iteration runs on the handle stored, not on the NULL that debarreledImage
held before that frame. -/
theorem C14_counterexample :
    failedDewarpStoring.dewarp.status ≠ RecognizerErrorStatus.RECOGNIZER_ERROR_STATUS_SUCCESS ∧
    LoopState.initial.debarreledImage = ImagePtr.null ∧
    Call.recognizerBarrelDewarperDewarp (RecognizerErrorStatus.failure 4)
      ∈ (frameIteration buildRecognizerCallback LoopState.initial failedDewarpStoring).calls ∧
    (frameIteration buildRecognizerCallback LoopState.initial
      failedDewarpStoring).calls.countP isRecognizeCall = 1 ∧
    Call.recognizerRecognizeFromImage (ImagePtr.handle 9) 1
        RecognizerErrorStatus.RECOGNIZER_ERROR_STATUS_SUCCESS
      ∈ (frameIteration buildRecognizerCallback LoopState.initial failedDewarpStoring).calls ∧
    Call.recognizerRecognizeFromImage ImagePtr.null 1
        RecognizerErrorStatus.RECOGNIZER_ERROR_STATUS_SUCCESS
      ∉ (frameIteration buildRecognizerCallback LoopState.initial failedDewarpStoring).calls := by
  decide

/-- C14 at a concrete frame: on the first frame a dewarp that fails and stores
no handle is followed by the recognition on NULL. -/
theorem C14_statuses_ignored_witness :
    Call.recognizerBarrelDewarperDewarp (RecognizerErrorStatus.failure 4)
      ∈ (frameIteration buildRecognizerCallback LoopState.initial failedDewarpInput).calls ∧
    Call.recognizerRecognizeFromImage ImagePtr.null 1
        RecognizerErrorStatus.RECOGNIZER_ERROR_STATUS_SUCCESS
      ∈ (frameIteration buildRecognizerCallback LoopState.initial failedDewarpInput).calls :=
  ⟨by decide,
   (C14_statuses_ignored buildRecognizerCallback LoopState.initial failedDewarpInput
      rfl).2.2.2.2.2.2.2.1 rfl rfl⟩

/-! ## C15: no use of a per-frame handle after its release -/

/-- Calls that release nothing in front of a list do not matter for the check. -/
theorem noUseAfterRelease_append (l1 l2 : List Call) (h : ∀ c ∈ l1, releases c = none) :
    noUseAfterRelease (l1 ++ l2) = noUseAfterRelease l2 := by
  induction l1 with
  | nil => rfl
  | cons c rest ih =>
      have hc : releases c = none := h c (by simp)
      simp only [List.cons_append, noUseAfterRelease, hc, Bool.true_and]
      exact ih (fun d hd => h d (List.mem_cons_of_mem _ hd))

/-- What the check says of a list cut at a release call: behind the release no
call uses the handle released. -/
theorem noUseAfterRelease_split (l : List Call) (h : noUseAfterRelease l = true) :
    ∀ (a : List Call) (c : Call) (b : List Call) (k : HandleKind),
      l = a ++ c :: b → releases c = some k → ∀ d ∈ b, uses d k = false := by
  induction l with
  | nil =>
      intro a c b k he
      cases a <;> cases he
  | cons x rest ih =>
      intro a c b k he hr d hd
      simp only [noUseAfterRelease, Bool.and_eq_true] at h
      cases a with
      | nil =>
          simp only [List.nil_append, List.cons.injEq] at he
          obtain ⟨hx, hb⟩ := he
          subst hx
          subst hb
          have h1 := h.1
          rw [hr] at h1
          have := List.all_eq_true.1 h1 d hd
          simpa using this
      | cons y a2 =>
          simp only [List.cons_append, List.cons.injEq] at he
          exact ih h.2 a2 c b k he.2 hr d hd

/-- No result-phase call releases a handle. -/
theorem releases_none_phase (c : Call) (h : isResultPhaseCall c = true) : releases c = none := by
  cases c <;> first | rfl | cases h

/-- The check holds of the calls of every iteration. -/
theorem frameIteration_noUseAfterRelease (cb : RecognizerCallback) (st : LoopState)
    (fi : FrameInput) : noUseAfterRelease (frameIteration cb st fi).calls = true := by
  by_cases hc : fi.imageCreate = RecognizerErrorStatus.RECOGNIZER_ERROR_STATUS_SUCCESS
  · rw [frameIteration_calls_of_created cb st fi hc]
    have h5 : ∀ c ∈
        [Call.cameraRead,
         Call.recognizerImageCreateFromRawImage fi.frame.data fi.frame.cols fi.frame.rows
           fi.frame.step (frameRawType fi.frame) fi.imageCreate,
         Call.recognizerBarrelDewarperDewarp fi.dewarp.status,
         Call.recognizerRecognizeFromImage
           (match fi.dewarp.stored with
            | some p => p
            | none => st.debarreledImage) 1 fi.recognize,
         Call.recognizerResultListGetNumOfResults fi.numResults], releases c = none := by
      intro c hm
      simp only [List.mem_cons, List.mem_singleton, List.not_mem_nil, or_false] at hm
      rcases hm with h | h | h | h | h <;> subst h <;> rfl
    simp only [List.append_assoc]
    rw [noUseAfterRelease_append _ _ h5,
      noUseAfterRelease_append _ _ (fun c hm => releases_none_phase c (examineResults_phase fi c hm)),
      noUseAfterRelease_append _ _ (fun c hm => releases_none_phase c (notFound_phase _ c hm))]
    split_ifs <;> rfl
  · rw [frameIteration_of_not_created cb st fi hc]
    rfl

/-- C15: no per-frame handle is read after its release within an iteration of
the frame loop: behind a release call no call of the iteration uses the handle
released; in particular behind recognizerResultListDelete there is no getter
call and no cv::putText of a string obtained from the result entry (only of
string literals), behind recognizerImageDelete on the source image nothing
touches that image, and the matrix displayed as the debarreled frame is the one
built from debarreledImage by createImageFromRecognizerImage in this iteration,
in which debarreledImage is not released. -/
theorem C15_no_use_after_release (cb : RecognizerCallback) (st : LoopState) (fi : FrameInput) :
    (∀ (a : List Call) (c : Call) (b : List Call) (k : HandleKind),
      (frameIteration cb st fi).calls = a ++ c :: b → releases c = some k →
      ∀ d ∈ b, uses d k = false) ∧
    (∀ a b : List Call,
      (frameIteration cb st fi).calls = a ++ Call.recognizerResultListDelete :: b →
      ∀ d ∈ b, (∀ g, d ≠ Call.recognizerResultGetMRTD g) ∧
        (∀ t x y, d = Call.putText t x y → ∃ text, t = TextSource.literal text)) ∧
    (∀ a b : List Call,
      (frameIteration cb st fi).calls = a ++ Call.recognizerImageDelete ImageVar.image :: b →
      ∀ d ∈ b, uses d HandleKind.sourceImage = false) ∧
    (∀ w m, Call.imshow w MatVar.debarreledFrame m ∈ (frameIteration cb st fi).calls →
      m = createImageFromRecognizerImage fi.debarreledView ∧
      Call.createImageFromRecognizerImage ImageVar.debarreledImage
        ∈ (frameIteration cb st fi).calls) ∧
    releaseCalls HandleKind.dewarpedImage (frameIteration cb st fi).calls = 0 := by
  have hsplit := noUseAfterRelease_split _ (frameIteration_noUseAfterRelease cb st fi)
  refine ⟨hsplit, ?_, ?_, ?_, ?_⟩
  · intro a b he d hd
    have hu := hsplit a _ b HandleKind.resultList he rfl d hd
    constructor
    · intro g hg
      subst hg
      cases hu
    · intro t x y ht
      subst ht
      cases t with
      | literal text => exact ⟨text, rfl⟩
      | field g => cases hu
      | maleOrFemale => cases hu
      | dateString g f => cases hu
  · intro a b he d hd
    exact hsplit a _ b HandleKind.sourceImage he rfl d hd
  · intro w m hm
    by_cases hc : fi.imageCreate = RecognizerErrorStatus.RECOGNIZER_ERROR_STATUS_SUCCESS
    · rw [frameIteration_calls_of_created cb st fi hc] at hm ⊢
      constructor
      · simp only [List.mem_append] at hm
        rcases hm with (((hm | hm) | hm) | hm) | hm
        · simp at hm
        · cases examineResults_phase fi _ hm
        · cases notFound_phase _ _ hm
        · split_ifs at hm <;> simp at hm
          exact hm.2
        · split_ifs at hm <;> simp at hm
      · simp
    · rw [frameIteration_of_not_created cb st fi hc] at hm
      simp at hm
  · by_cases hc : fi.imageCreate = RecognizerErrorStatus.RECOGNIZER_ERROR_STATUS_SUCCESS
    · exact ((frameIteration_counts cb st fi hc).2 HandleKind.dewarpedImage).2
    · rw [frameIteration_of_not_created cb st fi hc]
      rfl

/-- C15 at a concrete frame: in an iteration with a found result the strings of
the result entry are drawn, the result list is released after that, and what
follows the release uses neither the list nor the source image. -/
theorem C15_no_use_after_release_witness :
    Call.putText (TextSource.field MRTDGetter.PrimaryID) 200 145
      ∈ (frameIteration buildRecognizerCallback LoopState.initial (sampleInput 32)).calls ∧
    (∀ d ∈ [Call.createImageFromRecognizerImage ImageVar.debarreledImage,
          Call.imshow "Display window" MatVar.frame sampleFrame,
          Call.imshow "Text window" MatVar.console consoleMat,
          Call.imshow "Display debarreled window" MatVar.dewarpedFrame
            (createImageFromRecognizerImage
              (imageOf 12 4 2 ⟨5⟩ RawImageType.RAW_IMAGE_TYPE_BGR)).clone,
          Call.waitKey 10 32, Call.recognizerReset],
      uses d HandleKind.resultList = false) :=
  ⟨by decide,
   (C15_no_use_after_release buildRecognizerCallback LoopState.initial (sampleInput 32)).1
     ([Call.cameraRead,
       Call.recognizerImageCreateFromRawImage (MatData.external ⟨1⟩) 1279 723 3837
         RawImageType.RAW_IMAGE_TYPE_BGR RecognizerErrorStatus.RECOGNIZER_ERROR_STATUS_SUCCESS,
       Call.recognizerBarrelDewarperDewarp RecognizerErrorStatus.RECOGNIZER_ERROR_STATUS_SUCCESS,
       Call.recognizerRecognizeFromImage (ImagePtr.handle 2) 1
         RecognizerErrorStatus.RECOGNIZER_ERROR_STATUS_SUCCESS,
       Call.recognizerResultListGetNumOfResults 1,
       Call.recognizerResultListGetResultAtIndex 0,
       Call.recognizerResultIsMRTDResult RecognizerErrorStatus.RECOGNIZER_ERROR_STATUS_SUCCESS 1,
       Call.recognizerResultIsResultValid RecognizerErrorStatus.RECOGNIZER_ERROR_STATUS_SUCCESS 1]
       ++ getterCalls ++ resultTextCalls ++ [Call.recognizerImageDelete ImageVar.image])
     Call.recognizerResultListDelete _ HandleKind.resultList (by decide) rfl⟩

end Demo
